import Mathlib

/-!
Verification of the WrapMeApp recommendation engine
(`src/public/js/engine.js`, catalog and tables from the configuration
module shipped with `src/public/js/app.js`).

Conventions of the shallow embedding:
* JavaScript numbers are modelled as rationals (`ℚ`); all the constants of
  the program are decimal literals, so every arithmetic step of the source
  is exact here.
* JavaScript objects holding plain data (garments, zone requirements,
  requirement sets) are records; the presentation-only fields `name` and
  `file` of catalog entries are omitted (they are never read by the
  engine).
* The substitution routine `replaceItem` mutates freshly copied arrays and
  a freshly spread object in place; it is modelled against an explicit
  store (`Store`) mapping array references and object references to their
  contents, so that the copy-on-write behaviour is a provable statement
  rather than an artefact of a pure translation.
-/

namespace WrapMe

/-- A temperature validity window (`tempRestriction` in the catalog).
`maxT`/`minT` model the optional `max`/`min` bounds. -/
structure TempWindow where
  maxT : Option ℚ := none
  minT : Option ℚ := none
deriving DecidableEq, Repr

/-- A catalog garment: `key`, insulation `clo`, layer `category`,
body `zone`, optional temperature restriction. -/
structure Garment where
  key : String
  clo : ℚ
  category : String
  zone : String
  tempRestriction : Option TempWindow := none
deriving DecidableEq, Repr

/-- A per-zone insulation target range (`min`, `max`, `optimal`). -/
structure ZoneReq where
  min : ℚ
  max : ℚ
  optimal : ℚ
deriving DecidableEq, Repr

/-- A requirement set: the five zone ranges plus risk metadata, exactly the
shape of a `TEMP_REQUIREMENTS` entry / `getTemperatureBand` result. -/
structure Requirements where
  core : ZoneReq
  head : ZoneReq
  hands : ZoneReq
  neck : ZoneReq
  feet : ZoneReq
  riskLevel : String
  alert : String
  maxExposure : Option ℚ := none
  warning : Option String := none
deriving DecidableEq, Repr

/-! ### Catalog (`CLOTHING_ITEMS` from the configuration module) -/

def vest : Garment := { key := "vest", clo := 0.15, category := "base", zone := "core" }
def tShirt : Garment := { key := "t-shirt", clo := 0.2, category := "base", zone := "core" }
def longSleeveTop : Garment := { key := "long-sleeve-top", clo := 0.25, category := "base", zone := "core" }
def longSleeveShirt : Garment := { key := "long-sleeve-shirt", clo := 0.25, category := "base", zone := "core" }
def thermalTop : Garment := { key := "thermal-top", clo := 0.35, category := "base", zone := "core" }
def thermalLeggings : Garment := { key := "thermal-leggings", clo := 0.35, category := "base", zone := "core" }

def vestTop : Garment := { key := "vest-top", clo := 0.13, category := "mid", zone := "core" }
def lightCardigan : Garment := { key := "light-cardigan", clo := 0.2, category := "mid", zone := "core" }
def cardigan : Garment := { key := "cardigan", clo := 0.25, category := "mid", zone := "core" }
def jumper : Garment := { key := "jumper", clo := 0.28, category := "mid", zone := "core" }
def turtleneck : Garment := { key := "turtleneck", clo := 0.29, category := "mid", zone := "core" }
def hoodie : Garment := { key := "hoodie", clo := 0.34, category := "mid", zone := "core" }
def fleece : Garment := { key := "fleece", clo := 0.37, category := "mid", zone := "core" }
def thickJumper : Garment := { key := "thick-jumper", clo := 0.4, category := "mid", zone := "core" }
def thickShirt : Garment := { key := "thick-shirt", clo := 0.35, category := "mid", zone := "core" }

def lightJacket : Garment := { key := "light-jacket", clo := 0.27, category := "outer", zone := "core" }
def coat : Garment := { key := "coat", clo := 0.5, category := "outer", zone := "core" }
def paddedCoat : Garment := { key := "padded-coat", clo := 0.62, category := "outer", zone := "core" }
def winterCoat : Garment := { key := "winter-coat", clo := 0.85, category := "outer", zone := "core" }

def hat : Garment := { key := "hat", clo := 0.05, category := "accessory", zone := "head" }
def warmHat : Garment := { key := "warm-hat", clo := 0.08, category := "accessory", zone := "head" }
def balaclava : Garment := { key := "balaclava", clo := 0.10, category := "accessory", zone := "head" }

def gloves : Garment := { key := "gloves", clo := 0.05, category := "accessory", zone := "hands" }
def insulatedGloves : Garment := { key := "insulated-gloves", clo := 0.10, category := "accessory", zone := "hands" }
def mittens : Garment := { key := "mittens", clo := 0.15, category := "accessory", zone := "hands" }

def scarf : Garment := { key := "scarf", clo := 0.05, category := "accessory", zone := "neck" }
def thickScarf : Garment := { key := "thick-scarf", clo := 0.08, category := "accessory", zone := "neck" }

def thickSocks : Garment := { key := "thick-socks", clo := 0.04, category := "accessory", zone := "feet" }
def thermalSocks : Garment := { key := "thermal-socks", clo := 0.06, category := "accessory", zone := "feet" }

/-- `CLOTHING_ITEMS.base` in insertion order. -/
def baseCatalog : List Garment :=
  [vest, tShirt, longSleeveTop, longSleeveShirt, thermalTop, thermalLeggings]

/-- `CLOTHING_ITEMS.mid` in insertion order. -/
def midCatalog : List Garment :=
  [vestTop, lightCardigan, cardigan, jumper, turtleneck, hoodie, fleece, thickJumper, thickShirt]

/-- `CLOTHING_ITEMS.outer` in insertion order. -/
def outerCatalog : List Garment := [lightJacket, coat, paddedCoat, winterCoat]

/-- `CLOTHING_ITEMS.head` in insertion order. -/
def headCatalog : List Garment := [hat, warmHat, balaclava]

/-- `CLOTHING_ITEMS.hands` in insertion order. -/
def handsCatalog : List Garment := [gloves, insulatedGloves, mittens]

/-- `CLOTHING_ITEMS.neck` in insertion order. -/
def neckCatalog : List Garment := [scarf, thickScarf]

/-- `CLOTHING_ITEMS.feet` in insertion order. -/
def feetCatalog : List Garment := [thickSocks, thermalSocks]

/-- Temperature-restriction check of `getAllItems`: an item is skipped when
the ambient temperature lies outside its validity window. -/
def tempOk (temp : ℚ) (g : Garment) : Bool :=
  match g.tempRestriction with
  | none => true
  | some w =>
    !((match w.maxT with | some m => decide (temp > m) | none => false)
      || (match w.minT with | some m => decide (temp < m) | none => false))

/-- `getAllItems(temp)`: all catalog items (zone objects in insertion
order), filtered by their temperature restrictions. -/
def getAllItems (temp : ℚ) : List Garment :=
  (baseCatalog ++ midCatalog ++ outerCatalog ++ headCatalog ++ handsCatalog
    ++ neckCatalog ++ feetCatalog).filter (tempOk temp)

/-! ### Temperature requirement bands (`TEMP_REQUIREMENTS`) -/

/-- `TEMP_REQUIREMENTS[15]`. -/
def req15 : Requirements :=
  { core := { min := 0.2, max := 0.4, optimal := 0.3 }
    head := { min := 0, max := 0, optimal := 0 }
    hands := { min := 0, max := 0, optimal := 0 }
    neck := { min := 0, max := 0, optimal := 0 }
    feet := { min := 0, max := 0, optimal := 0 }
    riskLevel := "low", alert := "green" }

/-- `TEMP_REQUIREMENTS[10]`. -/
def req10 : Requirements :=
  { core := { min := 0.3, max := 0.7, optimal := 0.5 }
    head := { min := 0, max := 0.05, optimal := 0 }
    hands := { min := 0, max := 0, optimal := 0 }
    neck := { min := 0, max := 0.05, optimal := 0 }
    feet := { min := 0, max := 0, optimal := 0 }
    riskLevel := "low-moderate", alert := "green" }

/-- `TEMP_REQUIREMENTS[7]`. -/
def req7 : Requirements :=
  { core := { min := 0.6, max := 0.9, optimal := 0.85 }
    head := { min := 0, max := 0.05, optimal := 0.05 }
    hands := { min := 0, max := 0.05, optimal := 0 }
    neck := { min := 0, max := 0.05, optimal := 0.05 }
    feet := { min := 0, max := 0.04, optimal := 0 }
    riskLevel := "low", alert := "green" }

/-- `TEMP_REQUIREMENTS[5]`. -/
def req5 : Requirements :=
  { core := { min := 0.8, max := 1.0, optimal := 0.9 }
    head := { min := 0.05, max := 0.08, optimal := 0.05 }
    hands := { min := 0.05, max := 0.10, optimal := 0.05 }
    neck := { min := 0.05, max := 0.08, optimal := 0.05 }
    feet := { min := 0, max := 0.04, optimal := 0 }
    riskLevel := "moderate", alert := "yellow" }

/-- `TEMP_REQUIREMENTS[2]`. -/
def req2 : Requirements :=
  { core := { min := 1.1, max := 1.4, optimal := 1.25 }
    head := { min := 0.05, max := 0.08, optimal := 0.08 }
    hands := { min := 0.05, max := 0.10, optimal := 0.10 }
    neck := { min := 0, max := 0.08, optimal := 0.08 }
    feet := { min := 0, max := 0.06, optimal := 0.04 }
    riskLevel := "moderate", alert := "yellow" }

/-- `TEMP_REQUIREMENTS[0]`. -/
def req0 : Requirements :=
  { core := { min := 1.2, max := 1.55, optimal := 1.4 }
    head := { min := 0.05, max := 0.10, optimal := 0.08 }
    hands := { min := 0.05, max := 0.15, optimal := 0.10 }
    neck := { min := 0.05, max := 0.08, optimal := 0.08 }
    feet := { min := 0.04, max := 0.06, optimal := 0.06 }
    riskLevel := "moderate", alert := "yellow", maxExposure := some 45 }

/-- `TEMP_REQUIREMENTS['-5']`. -/
def reqM5 : Requirements :=
  { core := { min := 1.5, max := 1.9, optimal := 1.7 }
    head := { min := 0.08, max := 0.10, optimal := 0.10 }
    hands := { min := 0.10, max := 0.15, optimal := 0.15 }
    neck := { min := 0.05, max := 0.08, optimal := 0.08 }
    feet := { min := 0.04, max := 0.06, optimal := 0.06 }
    riskLevel := "high", alert := "amber", maxExposure := some 20
    warning := some "Severe cold. Minimize outdoor time. High risk of frostbite." }

/-- `TEMP_REQUIREMENTS['-10']`. -/
def reqM10 : Requirements :=
  { core := { min := 1.6, max := 2.0, optimal := 1.8 }
    head := { min := 0.10, max := 0.10, optimal := 0.10 }
    hands := { min := 0.15, max := 0.15, optimal := 0.15 }
    neck := { min := 0.08, max := 0.08, optimal := 0.08 }
    feet := { min := 0.06, max := 0.06, optimal := 0.06 }
    riskLevel := "severe", alert := "red", maxExposure := some 10
    warning := some "Extreme cold. Get inside quick as you can! Frostbite risk within minutes." }

/-- The interpolation helper of `getTemperatureBand`:
`lower + factor * (upper - lower)`. -/
def interpolate (factor lower upper : ℚ) : ℚ := lower + factor * (upper - lower)

/-- Interpolate every numeric field of a zone requirement. -/
def interpZone (factor : ℚ) (lo hi : ZoneReq) : ZoneReq :=
  { min := interpolate factor lo.min hi.min
    max := interpolate factor lo.max hi.max
    optimal := interpolate factor lo.optimal hi.optimal }

/-- The interpolated requirement set built by `getTemperatureBand` between
two bounding bands: all zone figures interpolated, risk metadata taken
from the lower (colder) band. -/
def interpBand (lowerTemp : ℚ) (lowerReq : Requirements)
    (upperTemp : ℚ) (upperReq : Requirements) (temp : ℚ) : Requirements :=
  let factor := (temp - lowerTemp) / (upperTemp - lowerTemp)
  { core := interpZone factor lowerReq.core upperReq.core
    head := interpZone factor lowerReq.head upperReq.head
    hands := interpZone factor lowerReq.hands upperReq.hands
    neck := interpZone factor lowerReq.neck upperReq.neck
    feet := interpZone factor lowerReq.feet upperReq.feet
    riskLevel := lowerReq.riskLevel
    alert := lowerReq.alert
    maxExposure := lowerReq.maxExposure
    warning := lowerReq.warning }

/-- `getTemperatureBand(temp)`.  The two loops of the source iterate over
the literal seven-element `bands` array; they are unrolled here: the
exact-match chain mirrors the second loop (the 15 and −5 entries are
already caught by the clamps above it), and the interpolation chain
mirrors the first loop's search for the first consecutive pair with
`bands[i+1].temp ≤ temp < bands[i].temp`.  The final fallback is
unreachable for `−5 < temp < 15` (the JS code would fail there). -/
def getTemperatureBand (temp : ℚ) : Requirements :=
  if 15 ≤ temp then req15
  else if temp ≤ -5 then reqM5
  else if temp = 15 then req15
  else if temp = 10 then req10
  else if temp = 7 then req7
  else if temp = 5 then req5
  else if temp = 2 then req2
  else if temp = 0 then req0
  else if temp = -5 then reqM5
  else if 10 ≤ temp ∧ temp < 15 then interpBand 10 req10 15 req15 temp
  else if 7 ≤ temp ∧ temp < 10 then interpBand 7 req7 10 req10 temp
  else if 5 ≤ temp ∧ temp < 7 then interpBand 5 req5 7 req7 temp
  else if 2 ≤ temp ∧ temp < 5 then interpBand 2 req2 5 req5 temp
  else if 0 ≤ temp ∧ temp < 2 then interpBand 0 req0 2 req2 temp
  else if -5 ≤ temp ∧ temp < 0 then interpBand (-5) reqM5 0 req0 temp
  else reqM5

/-! ### Demographic adjustments (`ADJUSTMENTS`, `getAdjustedRequirements`) -/

/-- `ADJUSTMENTS.age[a].core`, with the `|| { core: 0 }` fallback. -/
def ageAdjCore (a : String) : ℚ :=
  if a = "infant" then 0.25
  else if a = "child" then 0.10
  else if a = "teen" then 0.05
  else if a = "adult" then 0
  else if a = "elderly" then 0.15
  else if a = "very-elderly" then 0.30
  else 0

/-- `ADJUSTMENTS.gender[g].core`, with the `|| { core: 0 }` fallback. -/
def genderAdjCore (g : String) : ℚ :=
  if g = "female" then 0.15
  else if g = "male" then 0
  else 0

/-- Shift a zone requirement by a constant (the repeated
`adjusted.core.min += …` triple of `getAdjustedRequirements`). -/
def shiftZone (z : ZoneReq) (d : ℚ) : ZoneReq :=
  { min := z.min + d, max := z.max + d, optimal := z.optimal + d }

/-- `getAdjustedRequirements(temp, ageCategory, gender)`: clones the band,
adds the age and gender core offsets, and floors the max-exposure time to
70 % for the `'elderly'` category (the JS guard
`ageCategory === 'elderly' && adjusted.maxExposure` is truthiness-based,
hence the `v ≠ 0` test). -/
def getAdjustedRequirements (temp : ℚ) (ageCategory gender : String) : Requirements :=
  let baseReqs := getTemperatureBand temp
  let adjusted := { baseReqs with core := shiftZone baseReqs.core (ageAdjCore ageCategory) }
  let adjusted := { adjusted with core := shiftZone adjusted.core (genderAdjCore gender) }
  if ageCategory = "elderly" then
    match adjusted.maxExposure with
    | some v => if v = 0 then adjusted
                else { adjusted with maxExposure := some ((v * 0.7).floor : ℚ) }
    | none => adjusted
  else adjusted

/-- The calibration step at the top of `getRecommendations`: a non-zero
`warmthAdjustment` shifts the core range by `0.25` per step (min floored
at zero) and passes every other field through unchanged. -/
def recommendationRequirements (temp : ℚ) (ageCategory gender : String)
    (warmthAdjustment : ℚ) : Requirements :=
  let requirements := getAdjustedRequirements temp ageCategory gender
  if warmthAdjustment ≠ 0 then
    let adjustment := warmthAdjustment * 0.25
    { core := { min := max 0 (requirements.core.min + adjustment)
                max := requirements.core.max + adjustment
                optimal := requirements.core.optimal + adjustment }
      head := requirements.head
      hands := requirements.hands
      neck := requirements.neck
      feet := requirements.feet
      alert := requirements.alert
      warning := requirements.warning
      maxExposure := requirements.maxExposure
      riskLevel := requirements.riskLevel }
  else requirements

/-- The reference temperatures of the band table. -/
def refTemps : List ℚ := [15, 10, 7, 5, 2, 0, -5]

/-! ### Per-zone candidate generation (`generateZoneCombinations`) -/

/-- A per-zone candidate: a garment subset, its summed insulation and its
distance-from-optimal score.  The `max === 0` short-circuit of the source
returns an object without a `score` field (never read on that path);
`score := 0` stands in for it. -/
structure Candidate where
  items : List Garment
  clo : ℚ
  score : ℚ := 0
deriving DecidableEq, Repr

/-- Sum of the insulation values of a garment list. -/
def sumClo (l : List Garment) : ℚ := (l.map (fun g => g.clo)).sum

/-- The vulnerable age categories (`['elderly', 'very-elderly', 'infant',
'child'].includes(ageCategory)`). -/
def isVulnerableAge (a : String) : Bool :=
  ["elderly", "very-elderly", "infant", "child"].contains a

mutual

/-- One node of the recursive subset enumeration (`recurse` in
`generateZoneCombinations`): check the core layering guards, record the
current subset when it falls in the accepted window, stop when the
insulation overshoots `max × 1.5` or the item list is exhausted, and
otherwise try extending with each remaining item. -/
def zoneRecurse (isCore : Bool) (maxBaseLayers : Nat) (rmin rmax opt : ℚ)
    (rest current : List Garment) (clo : ℚ) : List Candidate :=
  if isCore &&
      ((current.filter (fun i => i.category == "base")).length > maxBaseLayers
       || (current.filter (fun i => i.category == "mid")).length > 2
       || (current.filter (fun i => i.category == "outer")).length > 1) then []
  else if isCore && (current.filter (fun i => i.category == "base")).length ≥ 2
        && !((current.filter (fun i => i.category == "base")).any (fun i => i.key == "t-shirt")) then []
  else
    let recorded : List Candidate :=
      if rmin ≤ clo ∧ clo ≤ rmax * 1.3 then
        [{ items := current, clo := clo, score := |opt - clo| }]
      else []
    if clo > rmax * 1.5 ∨ rest.isEmpty then recorded
    else recorded ++ zoneTryEach isCore maxBaseLayers rmin rmax opt rest current clo
termination_by 2 * rest.length + 1

/-- The `for (let i = index; …)` loop body of `recurse`: for each later
item, apply the per-category skip conditions and recurse with the item
appended. -/
def zoneTryEach (isCore : Bool) (maxBaseLayers : Nat) (rmin rmax opt : ℚ)
    (rest current : List Garment) (clo : ℚ) : List Candidate :=
  match rest with
  | [] => []
  | nextItem :: r =>
    let baseItems := current.filter (fun i => i.category == "base")
    let baseCount := baseItems.length
    let midCount := (current.filter (fun i => i.category == "mid")).length
    let outerCount := (current.filter (fun i => i.category == "outer")).length
    let skip : Bool :=
      isCore &&
        ((nextItem.category == "base" && baseCount ≥ maxBaseLayers)
         || (nextItem.category == "base" && baseCount == 1
             && !(baseItems.any (fun i => i.key == "t-shirt"))
             && !(nextItem.key == "t-shirt"))
         || (nextItem.category == "mid" && midCount ≥ 2)
         || (nextItem.category == "outer" && outerCount ≥ 1))
    (if skip then []
     else zoneRecurse isCore maxBaseLayers rmin rmax opt r (current ++ [nextItem]) (clo + nextItem.clo))
      ++ zoneTryEach isCore maxBaseLayers rmin rmax opt r current clo
termination_by 2 * rest.length

end

/-- `generateZoneCombinations(items, requirement, temp, ageCategory)`:
short-circuit for a zero-max requirement, run the enumeration, sort
ascending by distance from optimal, keep the top 30. -/
def generateZoneCombinations (items : List Garment) (requirement : ZoneReq)
    (temp : ℚ) (ageCategory : String) : List Candidate :=
  let isVulnerable := isVulnerableAge ageCategory
  let isCold := decide (temp ≤ 5)
  let maxBaseLayers : Nat := if isVulnerable && isCold then 3 else 2
  if requirement.max = 0 then [{ items := [], clo := 0 }]
  else
    let isCore := items.any (fun i => i.zone == "core")
    let combos := zoneRecurse isCore maxBaseLayers requirement.min requirement.max
      requirement.optimal items [] 0
    (combos.mergeSort (fun a b => decide (a.score ≤ b.score))).take 30

/-! ### Outfit composition (`findCombinations`) -/

/-- The object built by `findCombinations`: five zone garment lists plus
the aggregate insulation figures. -/
structure Combo where
  core : List Garment
  head : List Garment
  hands : List Garment
  neck : List Garment
  feet : List Garment
  totalCLO : ℚ
  coreCLO : ℚ
  meetsRequirements : Bool := true
deriving DecidableEq, Repr

/-- `findCombinations(requirements, maxCombinations, temp, ageCategory)`:
per-zone generation, then the nested cartesian loops over the top 20 core
and top 3 accessory candidates; the early `return` once
`maxCombinations` outfits are collected is the `take` at the end (the
loops emit outfits in exactly this nesting order). -/
def findCombinations (requirements : Requirements) (maxCombinations : Nat)
    (temp : ℚ) (ageCategory : String) : List Combo :=
  let allItems := getAllItems temp
  let coreItems := allItems.filter (fun i => i.zone == "core")
  let headItems := allItems.filter (fun i => i.zone == "head")
  let handsItems := allItems.filter (fun i => i.zone == "hands")
  let neckItems := allItems.filter (fun i => i.zone == "neck")
  let feetItems := allItems.filter (fun i => i.zone == "feet")
  let coreCombos := generateZoneCombinations coreItems requirements.core temp ageCategory
  let headCombos := generateZoneCombinations headItems requirements.head temp ageCategory
  let handsCombos := generateZoneCombinations handsItems requirements.hands temp ageCategory
  let neckCombos := generateZoneCombinations neckItems requirements.neck temp ageCategory
  let feetCombos := generateZoneCombinations feetItems requirements.feet temp ageCategory
  let nested :=
    (coreCombos.take 20).flatMap (fun c =>
      (headCombos.take 3).flatMap (fun h =>
        (handsCombos.take 3).flatMap (fun ha =>
          (neckCombos.take 3).flatMap (fun n =>
            (feetCombos.take 3).map (fun f =>
              ({ core := c.items, head := h.items, hands := ha.items
                 neck := n.items, feet := f.items
                 totalCLO := c.clo + h.clo + ha.clo + n.clo + f.clo
                 coreCLO := c.clo, meetsRequirements := true } : Combo))))))
  nested.take maxCombinations

/-! ### Wearability validation (`isValidCombination` and helpers) -/

/-- The result shape of `isValidCombination` with `debug = true`
(`{ isValid, reason }`); with `debug = false` the source returns a bare
boolean, modelled as the same record with `reason := none`. -/
structure ValidationResult where
  isValid : Bool
  reason : Option String := none
deriving DecidableEq, Repr

/-- `getMaxMidCLOForOuter(outerCLO, temp)`: the temperature-scaled
mid-layer ceiling; `none` models the `Infinity` (no limit) return for
light outer layers. -/
def getMaxMidCLOForOuter (outerCLO temp : ℚ) : Option ℚ :=
  if outerCLO ≥ 0.49 then
    some (max 0.50 (min 1.00 (1.00 - ((temp + 15) / 30) * 0.50)))
  else if outerCLO ≥ 0.37 then
    some (max 0.55 (min 0.95 (0.95 - ((temp + 15) / 30) * 0.40)))
  else none

/-- `hasRedundantMidLayers(midItems)`. -/
def hasRedundantMidLayers (midItems : List Garment) : Bool :=
  (midItems.any (fun i => i.key == "jumper")) && (midItems.any (fun i => i.key == "thick-jumper"))

/-- `hasTooManyHeavyMidLayers(midItems)`. -/
def hasTooManyHeavyMidLayers (midItems : List Garment) : Bool :=
  (midItems.filter (fun i => (["thick-jumper", "fleece", "hoodie"] : List String).contains i.key)).length > 2

/-- `hasValidBaseLayers(baseItems, maxBaseLayers)`.  Note that the
standalone-vest guard tests for the key `'tank-top'`, exactly as in the
source (`const hasVest = baseItems.some(item => item.key === 'tank-top')`),
even though the catalog's minimal base garment has key `'vest'`. -/
def hasValidBaseLayers (baseItems : List Garment) (maxBaseLayers : Nat) : ValidationResult :=
  if baseItems.length > maxBaseLayers then
    { isValid := false, reason := some ("Too many base layers (>" ++ toString maxBaseLayers ++ ")") }
  else if baseItems.length ≥ 2 && !(baseItems.any (fun i => i.key == "t-shirt")) then
    { isValid := false
      reason := some (toString baseItems.length ++ " base layers without t-shirt foundation") }
  else if (baseItems.any (fun i => i.key == "tank-top")) && baseItems.length == 1 then
    { isValid := false
      reason := some "Vest cannot be worn alone (needs t-shirt or long-sleeve top)" }
  else { isValid := true }

/-- `isValidCombination(combination, debug, temp, ageCategory)`: the main
wearability filter.  With `debug = false` the source returns bare
booleans; both modes are modelled as a `ValidationResult`, with the
rejection reason attached only in debug mode. -/
def isValidCombination (combination : Combo) (debug : Bool) (temp : ℚ)
    (ageCategory : String) : ValidationResult :=
  let reject : String → ValidationResult := fun reason =>
    if debug then { isValid := false, reason := some reason } else { isValid := false }
  let baseItems := combination.core.filter (fun i => i.category == "base")
  let midItems := combination.core.filter (fun i => i.category == "mid")
  let outerItems := combination.core.filter (fun i => i.category == "outer")
  let midCLO := sumClo midItems
  let outerCLO := sumClo outerItems
  let isVulnerable := isVulnerableAge ageCategory
  let maxBaseLayers : Nat := if isVulnerable && decide (temp ≤ 5) then 3 else 2
  if outerItems.length > 1 then reject "Multiple outer layers"
  else if midItems.length > 2 then reject "Too many mid-layers (>2)"
  else
    let baseValidation := hasValidBaseLayers baseItems maxBaseLayers
    if !baseValidation.isValid then
      (if debug then { isValid := false, reason := baseValidation.reason }
       else { isValid := false })
    else if hasRedundantMidLayers midItems then
      reject "Jumper and thick-jumper together (redundant)"
    else if hasTooManyHeavyMidLayers midItems then
      reject "Too many heavy mid-layers (bulky)"
    else if (match getMaxMidCLOForOuter outerCLO temp with
             | some m => decide (midCLO > m)
             | none => false) then
      reject "Excessive mid-layers for outer layer"
    else if temp < 2 ∧ outerCLO = 0 ∧ midCLO > 0.50 + (2 - temp) * 0.05 then
      reject "Heavy mid-layers need outer layer in cold weather"
    else if midItems.length ≥ 3 && outerItems.length ≥ 1
            && !(midItems.all (fun i => decide (i.clo ≤ 0.20))) then
      reject "Too many mid-layers with outer (bulky)"
    else { isValid := true }

/-! ### Scoring, diversity, selection (`calculatePracticalityScore`,
`calculateDiversity`, `selectDiverseCombinations`, `countCommonItems`) -/

/-- The outfit object after `getRecommendations` has attached
`targetOptimal`, `practicalityScore`, `requirements` and
`commonItemsCount` to a combination. -/
structure Outfit extends Combo where
  targetOptimal : ℚ
  practicalityScore : ℚ
  requirements : Requirements
  commonItemsCount : Nat
deriving DecidableEq, Repr

/-- `PRACTICALITY_WEIGHTS`. -/
def weightFewerItems : ℚ := 2.0
def weightCommonItems : ℚ := 1.5
def weightProperLayering : ℚ := 3.0
def weightAvoidRedundancy : ℚ := 2.5

/-- `ITEM_FREQUENCY[key] || 0.5` (every listed frequency is non-zero, so
the JS truthiness fallback is a plain lookup default). -/
def itemFrequency (key : String) : ℚ :=
  if key = "t-shirt" then 1.3
  else if key = "vest" then 1.0
  else if key = "long-sleeve-top" then 0.9
  else if key = "jumper" then 1.2
  else if key = "coat" then 0.8
  else if key = "vest-top" then 0.6
  else if key = "cardigan" then 0.5
  else if key = "hoodie" then 0.9
  else if key = "thermal-top" then 0.5
  else if key = "fleece" then 1.0
  else if key = "thick-jumper" then 0.9
  else if key = "thick-shirt" then 0.8
  else if key = "turtleneck" then 0.5
  else if key = "light-jacket" then 0.7
  else if key = "winter-coat" then 0.6
  else if key = "heavy-winter-coat" then 0.4
  else if key = "hat" then 0.8
  else if key = "warm-hat" then 0.7
  else if key = "balaclava" then 0.3
  else if key = "gloves" then 0.8
  else if key = "insulated-gloves" then 0.6
  else if key = "mittens" then 0.5
  else if key = "scarf" then 0.8
  else if key = "thick-scarf" then 0.6
  else if key = "thick-socks" then 0.6
  else if key = "thermal-socks" then 0.5
  else 0.5

/-- All garments of an outfit in zone order (the repeated
`[...core, ...head, ...hands, ...neck, ...feet]` spread). -/
def allGarments (c : Combo) : List Garment :=
  c.core ++ c.head ++ c.hands ++ c.neck ++ c.feet

/-- `calculatePracticalityScore(combination)`.  The source's
`Math.abs(combination.coreCLO - combination.targetOptimal || 0)` has the
`|| 0` guarding only the `undefined` case (the field is always set before
scoring), so it is the plain absolute difference here. -/
def calculatePracticalityScore (combination : Outfit) : ℚ :=
  let allItems := allGarments combination.toCombo
  let itemCount : ℚ := allItems.length
  let score : ℚ := 100 + (10 - itemCount) * weightFewerItems
  let score := score + ((allItems.map (fun i => itemFrequency i.key * weightCommonItems)).sum)
  let hasBase := combination.core.any (fun i => i.category == "base")
  let hasMid := combination.core.any (fun i => i.category == "mid")
  let hasOuter := combination.core.any (fun i => i.category == "outer")
  let score :=
    if hasBase && hasMid && hasOuter then score + weightProperLayering * 2
    else if (hasBase && hasMid) || (hasBase && hasOuter) || (hasMid && hasOuter) then
      score + weightProperLayering
    else score
  let cats := (combination.core.map (fun i => i.category ++ "-" ++ i.zone)).dedup
  let score := score + (cats.map (fun c =>
      let count := (combination.core.filter (fun i => i.category ++ "-" ++ i.zone == c)).length
      if count ≤ 1 then weightAvoidRedundancy
      else -(weightAvoidRedundancy * (count - 1 : ℕ)))).sum
  let score := score + 100 / (1 + |combination.coreCLO - combination.targetOptimal| * 10)
  let hasTShirt := combination.core.any (fun i => i.key == "t-shirt")
  let score := if hasTShirt then score + 25 else score
  let hasThermal := combination.core.any (fun i => i.key == "thermal-top")
  let score := if hasTShirt && hasThermal then score + 15 else score
  score

/-- `calculateDiversity(combo1, combo2)`: the weighted dissimilarity
between two outfits.  JS `Set` sizes become `dedup` lengths. -/
def calculateDiversity (combo1 combo2 : Outfit) : ℚ :=
  let allItems1 := allGarments combo1.toCombo
  let allItems2 := allGarments combo2.toCombo
  let itemCountDiff : ℚ := |(allItems1.length : ℚ) - (allItems2.length : ℚ)|
  let d1 := itemCountDiff * 20
  let keys1 := (allItems1.map (fun i => i.key)).dedup
  let keys2 := (allItems2.map (fun i => i.key)).dedup
  let overlap : ℚ := (keys1.filter (fun k => keys2.contains k)).length
  let totalUnique : ℚ := (keys1.length : ℚ) + (keys2.length : ℚ) - overlap
  let differentItems := totalUnique - overlap
  let d2 := d1 + differentItems * 10
  let base1 : ℚ := (combo1.core.filter (fun i => i.category == "base")).length
  let mid1 : ℚ := (combo1.core.filter (fun i => i.category == "mid")).length
  let outer1 : ℚ := (combo1.core.filter (fun i => i.category == "outer")).length
  let base2 : ℚ := (combo2.core.filter (fun i => i.category == "base")).length
  let mid2 : ℚ := (combo2.core.filter (fun i => i.category == "mid")).length
  let outer2 : ℚ := (combo2.core.filter (fun i => i.category == "outer")).length
  let layerDiff := |base1 - base2| + |mid1 - mid2| + |outer1 - outer2|
  let d3 := d2 + layerDiff * 15
  let baseCLO1 := sumClo (combo1.core.filter (fun i => i.category == "base"))
  let midCLO1 := sumClo (combo1.core.filter (fun i => i.category == "mid"))
  let outerCLO1 := sumClo (combo1.core.filter (fun i => i.category == "outer"))
  let baseCLO2 := sumClo (combo2.core.filter (fun i => i.category == "base"))
  let midCLO2 := sumClo (combo2.core.filter (fun i => i.category == "mid"))
  let outerCLO2 := sumClo (combo2.core.filter (fun i => i.category == "outer"))
  let cloDiff := |baseCLO1 - baseCLO2| + |midCLO1 - midCLO2| + |outerCLO1 - outerCLO2|
  let d4 := d3 + cloDiff * 30
  let hasHead1 : Bool := decide (combo1.head.length > 0)
  let hasHead2 : Bool := decide (combo2.head.length > 0)
  let hasHands1 : Bool := decide (combo1.hands.length > 0)
  let hasHands2 : Bool := decide (combo2.hands.length > 0)
  let d5 := if hasHead1 != hasHead2 then d4 + 5 else d4
  if hasHands1 != hasHands2 then d5 + 5 else d5

/-- The second-pick loop of `selectDiverseCombinations`: running maximum
(initialised at −1, strict improvement) of diversity against the first
pick. -/
def pickMostDiverse (first : Outfit) (best : Option Outfit) (maxDiversity : ℚ) :
    List Outfit → Option Outfit
  | [] => best
  | c :: rest =>
    let d := calculateDiversity first c
    if d > maxDiversity then pickMostDiverse first (some c) d rest
    else pickMostDiverse first best maxDiversity rest

/-- The third-pick loop: running maximum of summed diversity against the
first two picks, skipping already selected outfits. -/
def pickMaxTotal (first second : Outfit) (selected : List Outfit)
    (best : Option Outfit) (maxTotal : ℚ) : List Outfit → Option Outfit
  | [] => best
  | c :: rest =>
    if selected.contains c then pickMaxTotal first second selected best maxTotal rest
    else
      let total := calculateDiversity first c + calculateDiversity second c
      if total > maxTotal then pickMaxTotal first second selected (some c) total rest
      else pickMaxTotal first second selected best maxTotal rest

/-- `selectDiverseCombinations(validCombinations)`: greedy top pick, most
diverse second, maximal-total-diversity third. -/
def selectDiverseCombinations (validCombinations : List Outfit) : List Outfit :=
  match validCombinations with
  | [] => []
  | [x] => [x]
  | x :: rest =>
    let second? := pickMostDiverse x none (-1) rest
    let selected := x :: second?.toList
    if validCombinations.length > 2 then
      match second? with
      | some s => selected ++ (pickMaxTotal x s selected none (-1) rest).toList
      | none => selected
    else selected

/-- `countCommonItems(combination)` with the engine's
`veryCommonItems` list. -/
def countCommonItems (combination : Combo) : Nat :=
  let veryCommonItems : List String :=
    ["t-shirt", "jumper", "hoodie", "fleece", "coat", "long-sleeve-top", "light-jacket"]
  (allGarments combination).foldl
    (fun count item => if veryCommonItems.contains item.key then count + 1 else count) 0

/-- The sort comparator of `getRecommendations` step 5 (descending
practicality score, common-item count as tie-break within 5 points);
`recommendSortLE a b` holds when the JS comparator returns ≤ 0 on
`(a, b)`, i.e. when `a` may stay before `b`. -/
def recommendSortLE (a b : Outfit) : Bool :=
  let scoreDiff := b.practicalityScore - a.practicalityScore
  if |scoreDiff| ≤ 5 then decide ((b.commonItemsCount : ℚ) - (a.commonItemsCount : ℚ) ≤ 0)
  else decide (scoreDiff ≤ 0)

/-- Steps 4–6 of `getRecommendations`: attach the scoring fields to a
valid combination. -/
def attachScores (requirements : Requirements) (c : Combo) : Outfit :=
  let o : Outfit :=
    { toCombo := c, targetOptimal := requirements.core.optimal
      practicalityScore := 0, requirements := requirements, commonItemsCount := 0 }
  let o := { o with practicalityScore := calculatePracticalityScore o }
  { o with commonItemsCount := countCommonItems o.toCombo }

/-- `getRecommendations(temp, ageCategory, gender, warmthAdjustment)`:
requirements (with calibration), generation, wearability filter, scoring,
sort, diverse top-3 (empty list when nothing validates). -/
def getRecommendations (temp : ℚ) (ageCategory gender : String)
    (warmthAdjustment : ℚ) : List Outfit :=
  let requirements := recommendationRequirements temp ageCategory gender warmthAdjustment
  let combinations := findCombinations requirements 50 temp ageCategory
  let validCombinations := combinations.filter
    (fun combo => (isValidCombination combo true temp ageCategory).isValid)
  let scored := validCombinations.map (attachScores requirements)
  let sorted := scored.mergeSort recommendSortLE
  if sorted.isEmpty then [] else selectDiverseCombinations sorted

/-! ### The substitution engine (`replaceItem`) over an explicit store

`replaceItem` spreads the incoming recommendation into a fresh object with
freshly copied zone arrays and then mutates those copies in place.  To
make its copy-on-write discipline provable, outfits are kept in a store:
`arrs` maps array references to garment lists, `objs` maps object
references to outfit objects (five array references plus the scalar
fields).  Garments and requirement sets are never mutated by the source,
so they stay plain values. -/

/-- The scalar fields of a recommendation object (everything `replaceItem`
copies by the object spread and later assigns to). -/
structure ObjFields where
  totalCLO : ℚ
  coreCLO : ℚ
  requirements : Requirements
  targetOptimal : ℚ := 0
  practicalityScore : ℚ := 0
  commonItemsCount : Nat := 0
  meetsRequirements : Bool := true
deriving DecidableEq, Repr

/-- A recommendation object in the store: references to its five zone
arrays plus its scalar fields. -/
structure OutfitObj where
  coreRef : Nat
  headRef : Nat
  handsRef : Nat
  neckRef : Nat
  feetRef : Nat
  fields : ObjFields
deriving DecidableEq, Repr

/-- The mutable state: array store and object store with fresh-reference
counters. -/
structure Store where
  arrs : Nat → List Garment
  nextArr : Nat
  objs : Nat → OutfitObj
  nextObj : Nat

/-- Read an array reference. -/
def readArr (s : Store) (r : Nat) : List Garment := s.arrs r

/-- Overwrite an array reference (an in-place `splice`/`push`). -/
def writeArr (s : Store) (r : Nat) (v : List Garment) : Store :=
  { s with arrs := fun x => if x = r then v else s.arrs x }

/-- Allocate a fresh array (`[...xs]`). -/
def allocArr (s : Store) (v : List Garment) : Store × Nat :=
  let f : Nat → List Garment := fun x => if x = s.nextArr then v else s.arrs x
  ({ s with arrs := f, nextArr := s.nextArr + 1 }, s.nextArr)

/-- Read an object reference. -/
def readObj (s : Store) (r : Nat) : OutfitObj := s.objs r

/-- Overwrite an object reference (a field assignment on that object). -/
def writeObj (s : Store) (r : Nat) (v : OutfitObj) : Store :=
  { s with objs := fun x => if x = r then v else s.objs x }

/-- Allocate a fresh object (`{...obj}`). -/
def allocObj (s : Store) (v : OutfitObj) : Store × Nat :=
  let f : Nat → OutfitObj := fun x => if x = s.nextObj then v else s.objs x
  ({ s with objs := f, nextObj := s.nextObj + 1 }, s.nextObj)

/-- The five-way zone chain used when removing the old item, inserting the
new one and in the rebalancing removal (`zone === 'core' ? updated.core :
… : updated.feet`). -/
def zoneRefOf (o : OutfitObj) (zone : String) : Nat :=
  if zone = "core" then o.coreRef
  else if zone = "head" then o.headRef
  else if zone = "hands" then o.handsRef
  else if zone = "neck" then o.neckRef
  else o.feetRef

/-- The four-way accessory chain of the upgrade-compensation loop
(`head`/`hands`/`neck`, else `feet`). -/
def accZoneRefOf (o : OutfitObj) (zone : String) : Nat :=
  if zone = "head" then o.headRef
  else if zone = "hands" then o.handsRef
  else if zone = "neck" then o.neckRef
  else o.feetRef

/-- The `{...currentRecommendation, core: [...], …}` spread: five fresh
array copies and a fresh object carrying the same scalar fields. -/
def copyOutfit (s : Store) (recRef : Nat) : Store × Nat :=
  let src := readObj s recRef
  let p1 := allocArr s (readArr s src.coreRef)
  let p2 := allocArr p1.1 (readArr s src.headRef)
  let p3 := allocArr p2.1 (readArr s src.handsRef)
  let p4 := allocArr p3.1 (readArr s src.neckRef)
  let p5 := allocArr p4.1 (readArr s src.feetRef)
  allocObj p5.1
    { coreRef := p1.2, headRef := p2.2, handsRef := p3.2, neckRef := p4.2
      feetRef := p5.2, fields := src.fields }

/-- Remove the old item from its zone array (`findIndex` by key, then
`splice`; a missing key leaves the store untouched). -/
def removeOldItem (s : Store) (u : Nat) (oldItem : Garment) : Store :=
  let obj := readObj s u
  let r := zoneRefOf obj oldItem.zone
  let items := readArr s r
  match items.findIdx? (fun item => item.key == oldItem.key) with
  | some idx => writeArr s r (items.eraseIdx idx)
  | none => s

/-- Push the new item onto its own zone array. -/
def addNewItem (s : Store) (u : Nat) (newItem : Garment) : Store :=
  let obj := readObj s u
  let r := zoneRefOf obj newItem.zone
  writeArr s r (readArr s r ++ [newItem])

/-- An entry of the `removableAccessories` work list (item, zone tag, the
zone's insulation snapshot and its requirement). -/
structure RemEntry where
  item : Garment
  zone : String
  currentCLO : ℚ
  req : ZoneReq
deriving DecidableEq, Repr

/-- The accessory-removal loop of the heavy-coat upgrade: stop once the
running estimate drops to the stop value, otherwise remove the entry's
item from its zone array and decrement the estimate by 30 % of the item's
insulation (`currentCoreCLO -= accessory.item.clo * 0.3`). -/
def removeAccessoriesLoop (s : Store) (u : Nat) (cur stopAt : ℚ) :
    List RemEntry → Store × ℚ
  | [] => (s, cur)
  | e :: rest =>
    if cur ≤ stopAt then (s, cur)
    else
      let obj := readObj s u
      let r := accZoneRefOf obj e.zone
      let arr := readArr s r
      match arr.findIdx? (fun item => item.key == e.item.key) with
      | some idx =>
        removeAccessoriesLoop (writeArr s r (arr.eraseIdx idx)) u
          (cur - e.item.clo * 0.3) stopAt rest
      | none => removeAccessoriesLoop s u cur stopAt rest

/-- CASE 1 of the outer-for-outer substitution: when the core insulation
exceeds `coreMax × 1.1`, build the accessory work list (head, neck,
hands, feet), order it by how far each zone sits above its minimum
(most-over first) and run the removal loop down to `coreMax × 1.05`. -/
def upgradeAdjust (s : Store) (u : Nat) : Store :=
  let obj := readObj s u
  let coreCLO := sumClo (readArr s obj.coreRef)
  let headCLO := sumClo (readArr s obj.headRef)
  let handsCLO := sumClo (readArr s obj.handsRef)
  let neckCLO := sumClo (readArr s obj.neckRef)
  let feetCLO := sumClo (readArr s obj.feetRef)
  let coreMax := obj.fields.requirements.core.max
  if coreCLO > coreMax * 1.1 then
    let removableAccessories : List RemEntry :=
      (readArr s obj.headRef).map (fun item =>
        { item := item, zone := "head", currentCLO := headCLO
          req := obj.fields.requirements.head }) ++
      (readArr s obj.neckRef).map (fun item =>
        { item := item, zone := "neck", currentCLO := neckCLO
          req := obj.fields.requirements.neck }) ++
      (readArr s obj.handsRef).map (fun item =>
        { item := item, zone := "hands", currentCLO := handsCLO
          req := obj.fields.requirements.hands }) ++
      (readArr s obj.feetRef).map (fun item =>
        { item := item, zone := "feet", currentCLO := feetCLO
          req := obj.fields.requirements.feet })
    let sortedAcc := removableAccessories.mergeSort
      (fun a b => decide (b.currentCLO - b.req.min ≤ a.currentCLO - a.req.min))
    (removeAccessoriesLoop s u coreCLO (coreMax * 1.05) sortedAcc).1
  else s

/-- The accessory-adding chain of CASE 2 (`if zone 'head' push head, else
'hands', else 'neck', else 'feet'`). -/
def pushAccessory (s : Store) (u : Nat) (item : Garment) (zone : String) : Store :=
  let obj := readObj s u
  if zone = "head" then writeArr s obj.headRef (readArr s obj.headRef ++ [item])
  else if zone = "hands" then writeArr s obj.handsRef (readArr s obj.handsRef ++ [item])
  else if zone = "neck" then writeArr s obj.neckRef (readArr s obj.neckRef ++ [item])
  else if zone = "feet" then writeArr s obj.feetRef (readArr s obj.feetRef ++ [item])
  else s

/-- CASE 2 of the outer-for-outer substitution: when the core insulation
fell below `coreMin`, add a scarf, then gloves, then a hat (each only if
the zone is empty, permitted, and the deficit thresholds hold). -/
def downgradeAdjust (s : Store) (u : Nat) : Store :=
  let obj := readObj s u
  let coreCLO := sumClo (readArr s obj.coreRef)
  let coreMin := obj.fields.requirements.core.min
  if coreCLO < coreMin then
    let accessoriesToAdd : List (Garment × String) :=
      (if (readArr s obj.neckRef).isEmpty
          && decide (obj.fields.requirements.neck.max > 0) then [(scarf, "neck")] else []) ++
      (if (readArr s obj.handsRef).isEmpty
          && decide (obj.fields.requirements.hands.max > 0)
          && decide (coreCLO + 0.05 < coreMin) then [(gloves, "hands")] else []) ++
      (if (readArr s obj.headRef).isEmpty
          && decide (obj.fields.requirements.head.max > 0)
          && decide (coreCLO + 0.10 < coreMin) then [(hat, "head")] else [])
    accessoriesToAdd.foldl (fun st p => pushAccessory st u p.1 p.2) s
  else s

/-- The outer-for-outer smart-substitution block of `replaceItem`. -/
def outerAdjust (s : Store) (u : Nat) (oldItem newItem : Garment) : Store :=
  if oldItem.category = "outer" ∧ newItem.category = "outer" then
    let cloChange := newItem.clo - oldItem.clo
    let isUpgradingToHeavyCoat := decide (newItem.clo ≥ 0.45)
    let s1 := if decide (cloChange ≥ 0.15) || isUpgradingToHeavyCoat then upgradeAdjust s u else s
    if cloChange ≤ -0.15 then downgradeAdjust s1 u else s1
  else s

/-- Recompute `totalCLO`/`coreCLO` from the current zone arrays. -/
def recalcCLO (s : Store) (u : Nat) : Store :=
  let obj := readObj s u
  let allItems := readArr s obj.coreRef ++ readArr s obj.headRef ++ readArr s obj.handsRef
    ++ readArr s obj.neckRef ++ readArr s obj.feetRef
  writeObj s u { obj with fields := { obj.fields with
    totalCLO := sumClo allItems, coreCLO := sumClo (readArr s obj.coreRef) } }

/-- An entry of the rebalancing work lists (item, zone tag, insulation). -/
structure RemovableItem where
  item : Garment
  zone : String
  clo : ℚ
deriving DecidableEq, Repr

/-- The too-warm rebalancing loop: remove the first (lightest-first) item
whose removal strictly improves the distance from optimal without
undershooting past the threshold, then stop. -/
def rebalanceRemoveLoop (s : Store) (u : Nat) (optimal threshold currentDistance : ℚ) :
    List RemovableItem → Store
  | [] => s
  | e :: rest =>
    let obj := readObj s u
    let newCoreCLO := obj.fields.coreCLO - e.clo
    let newDistance := newCoreCLO - optimal
    if |newDistance| < |currentDistance| ∧ newDistance ≥ -threshold then
      let r := zoneRefOf obj e.zone
      let arr := readArr s r
      match arr.findIdx? (fun i => i.key == e.item.key) with
      | some idx =>
        writeObj (writeArr s r (arr.eraseIdx idx)) u
          { obj with fields := { obj.fields with coreCLO := newCoreCLO } }
      | none => rebalanceRemoveLoop s u optimal threshold currentDistance rest
    else rebalanceRemoveLoop s u optimal threshold currentDistance rest

/-- The three-way chain of the too-cold rebalancing push
(`'head'`/`'hands'`, else `neck`). -/
def rebalanceAddRefOf (o : OutfitObj) (zone : String) : Nat :=
  if zone = "head" then o.headRef
  else if zone = "hands" then o.handsRef
  else o.neckRef

/-- The best-addition search of the too-cold rebalancing: the candidate
that most reduces the distance from optimal without overshooting past the
threshold. -/
def bestAddLoop (bestAdd : Option RemovableItem) (bestDistance optimal threshold coreCLO : ℚ) :
    List RemovableItem → Option RemovableItem
  | [] => bestAdd
  | e :: rest =>
    let newCoreCLO := coreCLO + e.clo
    let newDistance := newCoreCLO - optimal
    if |newDistance| < bestDistance ∧ newDistance ≤ threshold then
      bestAddLoop (some e) |newDistance| optimal threshold coreCLO rest
    else bestAddLoop bestAdd bestDistance optimal threshold coreCLO rest

/-- The auto-rebalancing block of `replaceItem` (threshold `0.20` around
the core optimal). -/
def autoRebalance (s : Store) (u : Nat) : Store :=
  let optimal := (readObj s u).fields.requirements.core.optimal
  let threshold : ℚ := 0.20
  let currentDistance := (readObj s u).fields.coreCLO - optimal
  let s1 :=
    if currentDistance > threshold then
      let obj := readObj s u
      let removableItems : List RemovableItem :=
        ((readArr s obj.coreRef).filter (fun i => i.category == "mid")).map
          (fun i => { item := i, zone := "core", clo := i.clo }) ++
        (readArr s obj.headRef).map (fun i => { item := i, zone := "head", clo := i.clo }) ++
        (readArr s obj.handsRef).map (fun i => { item := i, zone := "hands", clo := i.clo }) ++
        (readArr s obj.neckRef).map (fun i => { item := i, zone := "neck", clo := i.clo }) ++
        (readArr s obj.feetRef).map (fun i => { item := i, zone := "feet", clo := i.clo })
      let sortedItems := removableItems.mergeSort (fun a b => decide (a.clo ≤ b.clo))
      rebalanceRemoveLoop s u optimal threshold currentDistance sortedItems
    else s
  if currentDistance < -threshold then
    let obj := readObj s1 u
    let possibleAdds : List RemovableItem :=
      (if (readArr s1 obj.neckRef).isEmpty
          && decide (obj.fields.requirements.neck.max > 0) then
        [{ item := scarf, zone := "neck", clo := scarf.clo }] else []) ++
      (if (readArr s1 obj.headRef).isEmpty
          && decide (obj.fields.requirements.head.max > 0) then
        [{ item := hat, zone := "head", clo := hat.clo }] else []) ++
      (if (readArr s1 obj.handsRef).isEmpty
          && decide (obj.fields.requirements.hands.max > 0) then
        [{ item := gloves, zone := "hands", clo := gloves.clo }] else [])
    match bestAddLoop none |currentDistance| optimal threshold obj.fields.coreCLO possibleAdds with
    | some e =>
      let r := rebalanceAddRefOf obj e.zone
      writeObj (writeArr s1 r (readArr s1 r ++ [e.item])) u
        { obj with fields := { obj.fields with coreCLO := obj.fields.coreCLO + e.clo } }
    | none => s1
  else s1

/-- `replaceItem(currentRecommendation, oldItem, newItem)`: fresh copy,
remove old, insert new, outer-for-outer compensation, recalculation,
auto-rebalancing, final recalculation; returns the store and the
reference of the new outfit object. -/
def replaceItemH (s : Store) (recRef : Nat) (oldItem newItem : Garment) : Store × Nat :=
  let p := copyOutfit s recRef
  let u := p.2
  let s1 := removeOldItem p.1 u oldItem
  let s2 := addNewItem s1 u newItem
  let s3 := outerAdjust s2 u oldItem newItem
  let s4 := recalcCLO s3 u
  let s5 := autoRebalance s4 u
  let s6 := recalcCLO s5 u
  (s6, u)

/-! ### Concrete stores used to evaluate the substitution engine -/

/-- A small recommendation object (core: a t-shirt; requirements of the
10 °C band) held at array references 0–4. -/
def demoObj : OutfitObj :=
  { coreRef := 0, headRef := 1, handsRef := 2, neckRef := 3, feetRef := 4
    fields := { totalCLO := 0.2, coreCLO := 0.2, requirements := req10
                targetOptimal := 0.5, practicalityScore := 0
                commonItemsCount := 1, meetsRequirements := true } }

/-- A store holding `demoObj` at object reference 0 with its five zone
arrays at 0–4 (core `[t-shirt]`, accessories empty). -/
def demoStore : Store :=
  { arrs := fun r => if r = 0 then [tShirt] else []
    nextArr := 5
    objs := fun _ => demoObj
    nextObj := 1 }

/-- A recommendation object for the heavy-upgrade scenario: core
`[t-shirt, light-jacket]`, one accessory in each of head, hands and neck,
requirements of the 10 °C band. -/
def upgradeObj : OutfitObj :=
  { coreRef := 0, headRef := 1, handsRef := 2, neckRef := 3, feetRef := 4
    fields := { totalCLO := 0.8, coreCLO := 0.47, requirements := req10
                targetOptimal := 0.5, practicalityScore := 0
                commonItemsCount := 1, meetsRequirements := true } }

/-- The store holding `upgradeObj`: core `[t-shirt, light-jacket]`,
head `[balaclava]`, hands `[mittens]`, neck `[thick-scarf]`, feet `[]`. -/
def upgradeStore : Store :=
  { arrs := fun r =>
      if r = 0 then [tShirt, lightJacket]
      else if r = 1 then [balaclava]
      else if r = 2 then [mittens]
      else if r = 3 then [thickScarf]
      else []
    nextArr := 5
    objs := fun _ => upgradeObj
    nextObj := 1 }

/-- The piecewise-linear closed form of the band's core optimal, used only
inside the strictness proof. -/
def bandOptClosed (t : ℚ) : ℚ :=
  if t < 0 then 1.7 - 0.06 * (t + 5)
  else if t < 2 then 1.4 - 0.075 * t
  else if t < 5 then 1.25 - (7/60) * (t - 2)
  else if t < 7 then 0.9 - 0.025 * (t - 5)
  else if t < 10 then 0.85 - (7/60) * (t - 7)
  else 0.5 - 0.04 * (t - 10)

/-- Frame predicate over the store: every array reference below `n` and
every object slot below `m` is unchanged between `s` and the later store. -/
def Untouched (n m : Nat) (s s' : Store) : Prop :=
  (∀ r, r < n → s'.arrs r = s.arrs r) ∧ (∀ q, q < m → s'.objs q = s.objs q)

/-- The working outfit object `u` is a fresh slot (at or above `m`) whose
zone references all point at fresh arrays (at or above `n`). -/
def GoodObj (n m u : Nat) (s : Store) : Prop :=
  m ≤ u ∧ n ≤ (s.objs u).coreRef ∧ n ≤ (s.objs u).headRef ∧ n ≤ (s.objs u).handsRef
    ∧ n ≤ (s.objs u).neckRef ∧ n ≤ (s.objs u).feetRef

/-- Two outfit objects hold the same five zone array references. -/
def SameRefs (o1 o2 : OutfitObj) : Prop :=
  o1.coreRef = o2.coreRef ∧ o1.headRef = o2.headRef ∧ o1.handsRef = o2.handsRef
    ∧ o1.neckRef = o2.neckRef ∧ o1.feetRef = o2.feetRef

/-! ## Theorems -/

/-! ### The temperature interpolation (claim C6) -/

/-- Closed form of the interpolated core optimal on the (−5, 0) segment. -/
lemma bandOpt_seg_m5_0 (t : ℚ) (h1 : -5 < t) (h2 : t < 0) :
    (getTemperatureBand t).core.optimal = 1.7 - 0.06 * (t + 5) := by
  unfold getTemperatureBand
  rw [if_neg (by linarith), if_neg (by linarith),
      if_neg (show t ≠ 15 by intro h; subst h; linarith),
      if_neg (show t ≠ 10 by intro h; subst h; linarith),
      if_neg (show t ≠ 7 by intro h; subst h; linarith),
      if_neg (show t ≠ 5 by intro h; subst h; linarith),
      if_neg (show t ≠ 2 by intro h; subst h; linarith),
      if_neg (show t ≠ 0 by intro h; subst h; linarith),
      if_neg (show t ≠ -5 by intro h; subst h; linarith),
      if_neg (by intro h; exact absurd h.1 (by linarith)),
      if_neg (by intro h; exact absurd h.1 (by linarith)),
      if_neg (by intro h; exact absurd h.1 (by linarith)),
      if_neg (by intro h; exact absurd h.1 (by linarith)),
      if_neg (by intro h; exact absurd h.1 (by linarith)),
      if_pos ⟨by linarith, h2⟩]
  simp only [interpBand, interpZone, interpolate, reqM5, req0]
  norm_num
  ring

/-- Closed form of the interpolated core optimal on the (0, 2) segment. -/
lemma bandOpt_seg_0_2 (t : ℚ) (h1 : 0 < t) (h2 : t < 2) :
    (getTemperatureBand t).core.optimal = 1.4 - 0.075 * t := by
  unfold getTemperatureBand
  rw [if_neg (by linarith), if_neg (by linarith),
      if_neg (show t ≠ 15 by intro h; subst h; linarith),
      if_neg (show t ≠ 10 by intro h; subst h; linarith),
      if_neg (show t ≠ 7 by intro h; subst h; linarith),
      if_neg (show t ≠ 5 by intro h; subst h; linarith),
      if_neg (show t ≠ 2 by intro h; subst h; linarith),
      if_neg (show t ≠ 0 by intro h; subst h; linarith),
      if_neg (show t ≠ -5 by intro h; subst h; linarith),
      if_neg (by intro h; exact absurd h.1 (by linarith)),
      if_neg (by intro h; exact absurd h.1 (by linarith)),
      if_neg (by intro h; exact absurd h.1 (by linarith)),
      if_neg (by intro h; exact absurd h.1 (by linarith)),
      if_pos ⟨le_of_lt h1, h2⟩]
  simp only [interpBand, interpZone, interpolate, req0, req2]
  norm_num
  ring

/-- Closed form of the interpolated core optimal on the (2, 5) segment. -/
lemma bandOpt_seg_2_5 (t : ℚ) (h1 : 2 < t) (h2 : t < 5) :
    (getTemperatureBand t).core.optimal = 1.25 - (7/60) * (t - 2) := by
  unfold getTemperatureBand
  rw [if_neg (by linarith), if_neg (by linarith),
      if_neg (show t ≠ 15 by intro h; subst h; linarith),
      if_neg (show t ≠ 10 by intro h; subst h; linarith),
      if_neg (show t ≠ 7 by intro h; subst h; linarith),
      if_neg (show t ≠ 5 by intro h; subst h; linarith),
      if_neg (show t ≠ 2 by intro h; subst h; linarith),
      if_neg (show t ≠ 0 by intro h; subst h; linarith),
      if_neg (show t ≠ -5 by intro h; subst h; linarith),
      if_neg (by intro h; exact absurd h.1 (by linarith)),
      if_neg (by intro h; exact absurd h.1 (by linarith)),
      if_neg (by intro h; exact absurd h.1 (by linarith)),
      if_pos ⟨le_of_lt h1, h2⟩]
  simp only [interpBand, interpZone, interpolate, req2, req5]
  norm_num
  ring

/-- Closed form of the interpolated core optimal on the (5, 7) segment. -/
lemma bandOpt_seg_5_7 (t : ℚ) (h1 : 5 < t) (h2 : t < 7) :
    (getTemperatureBand t).core.optimal = 0.9 - 0.025 * (t - 5) := by
  unfold getTemperatureBand
  rw [if_neg (by linarith), if_neg (by linarith),
      if_neg (show t ≠ 15 by intro h; subst h; linarith),
      if_neg (show t ≠ 10 by intro h; subst h; linarith),
      if_neg (show t ≠ 7 by intro h; subst h; linarith),
      if_neg (show t ≠ 5 by intro h; subst h; linarith),
      if_neg (show t ≠ 2 by intro h; subst h; linarith),
      if_neg (show t ≠ 0 by intro h; subst h; linarith),
      if_neg (show t ≠ -5 by intro h; subst h; linarith),
      if_neg (by intro h; exact absurd h.1 (by linarith)),
      if_neg (by intro h; exact absurd h.1 (by linarith)),
      if_pos ⟨le_of_lt h1, h2⟩]
  simp only [interpBand, interpZone, interpolate, req5, req7]
  norm_num
  ring

/-- Closed form of the interpolated core optimal on the (7, 10) segment. -/
lemma bandOpt_seg_7_10 (t : ℚ) (h1 : 7 < t) (h2 : t < 10) :
    (getTemperatureBand t).core.optimal = 0.85 - (7/60) * (t - 7) := by
  unfold getTemperatureBand
  rw [if_neg (by linarith), if_neg (by linarith),
      if_neg (show t ≠ 15 by intro h; subst h; linarith),
      if_neg (show t ≠ 10 by intro h; subst h; linarith),
      if_neg (show t ≠ 7 by intro h; subst h; linarith),
      if_neg (show t ≠ 5 by intro h; subst h; linarith),
      if_neg (show t ≠ 2 by intro h; subst h; linarith),
      if_neg (show t ≠ 0 by intro h; subst h; linarith),
      if_neg (show t ≠ -5 by intro h; subst h; linarith),
      if_neg (by intro h; exact absurd h.1 (by linarith)),
      if_pos ⟨le_of_lt h1, h2⟩]
  simp only [interpBand, interpZone, interpolate, req7, req10]
  norm_num
  ring

/-- Closed form of the interpolated core optimal on the (10, 15) segment. -/
lemma bandOpt_seg_10_15 (t : ℚ) (h1 : 10 < t) (h2 : t < 15) :
    (getTemperatureBand t).core.optimal = 0.5 - 0.04 * (t - 10) := by
  unfold getTemperatureBand
  rw [if_neg (by linarith), if_neg (by linarith),
      if_neg (show t ≠ 15 by intro h; subst h; linarith),
      if_neg (show t ≠ 10 by intro h; subst h; linarith),
      if_neg (show t ≠ 7 by intro h; subst h; linarith),
      if_neg (show t ≠ 5 by intro h; subst h; linarith),
      if_neg (show t ≠ 2 by intro h; subst h; linarith),
      if_neg (show t ≠ 0 by intro h; subst h; linarith),
      if_neg (show t ≠ -5 by intro h; subst h; linarith),
      if_pos ⟨le_of_lt h1, h2⟩]
  simp only [interpBand, interpZone, interpolate, req10, req15]
  norm_num
  ring

/-- The six open interpolation segments between the reference
temperatures. -/
lemma seg_cases (t : ℚ) (h1 : -5 < t) (h2 : t < 15)
    (e0 : t ≠ 0) (e2 : t ≠ 2) (e5 : t ≠ 5) (e7 : t ≠ 7) (e10 : t ≠ 10) :
    (-5 < t ∧ t < 0) ∨ (0 < t ∧ t < 2) ∨ (2 < t ∧ t < 5) ∨ (5 < t ∧ t < 7)
      ∨ (7 < t ∧ t < 10) ∨ (10 < t ∧ t < 15) := by
  rcases lt_or_gt_of_ne e0 with h | h
  · exact Or.inl ⟨h1, h⟩
  rcases lt_or_gt_of_ne e2 with h' | h'
  · exact Or.inr (Or.inl ⟨h, h'⟩)
  rcases lt_or_gt_of_ne e5 with h'' | h''
  · exact Or.inr (Or.inr (Or.inl ⟨h', h''⟩))
  rcases lt_or_gt_of_ne e7 with h3 | h3
  · exact Or.inr (Or.inr (Or.inr (Or.inl ⟨h'', h3⟩)))
  rcases lt_or_gt_of_ne e10 with h4 | h4
  · exact Or.inr (Or.inr (Or.inr (Or.inr (Or.inl ⟨h3, h4⟩))))
  · exact Or.inr (Or.inr (Or.inr (Or.inr (Or.inr ⟨h4, h2⟩))))

/-- On the open interval (−5, 15), away from the reference temperatures,
the band's core optimal coincides with the closed form. -/
lemma bandOpt_eq_closed (t : ℚ) (h1 : -5 < t) (h2 : t < 15)
    (e0 : t ≠ 0) (e2 : t ≠ 2) (e5 : t ≠ 5) (e7 : t ≠ 7) (e10 : t ≠ 10) :
    (getTemperatureBand t).core.optimal = bandOptClosed t := by
  rcases seg_cases t h1 h2 e0 e2 e5 e7 e10 with h | h | h | h | h | h
  · rw [bandOpt_seg_m5_0 t h.1 h.2]
    unfold bandOptClosed
    rw [if_pos h.2]
  · rw [bandOpt_seg_0_2 t h.1 h.2]
    unfold bandOptClosed
    rw [if_neg (by linarith), if_pos h.2]
  · rw [bandOpt_seg_2_5 t h.1 h.2]
    unfold bandOptClosed
    rw [if_neg (by linarith), if_neg (by linarith), if_pos h.2]
  · rw [bandOpt_seg_5_7 t h.1 h.2]
    unfold bandOptClosed
    rw [if_neg (by linarith), if_neg (by linarith), if_neg (by linarith), if_pos h.2]
  · rw [bandOpt_seg_7_10 t h.1 h.2]
    unfold bandOptClosed
    rw [if_neg (by linarith), if_neg (by linarith), if_neg (by linarith),
        if_neg (by linarith), if_pos h.2]
  · rw [bandOpt_seg_10_15 t h.1 h.2]
    unfold bandOptClosed
    rw [if_neg (by linarith), if_neg (by linarith), if_neg (by linarith),
        if_neg (by linarith), if_neg (by linarith)]

/-- The closed form is strictly decreasing on (−5, 15). -/
lemma bandOptClosed_strictAnti (t1 t2 : ℚ) (h1 : -5 < t1) (h12 : t1 < t2) (h2 : t2 < 15) :
    bandOptClosed t2 < bandOptClosed t1 := by
  unfold bandOptClosed
  split_ifs <;> linarith

/-- The demographic adjustment shifts the core optimal by the two additive
offsets and nothing else. -/
lemma adjusted_core_optimal (t : ℚ) (a g : String) :
    (getAdjustedRequirements t a g).core.optimal
      = (getTemperatureBand t).core.optimal + ageAdjCore a + genderAdjCore g := by
  unfold getAdjustedRequirements shiftZone
  by_cases ha : a = "elderly" <;>
    cases h : (getTemperatureBand t).maxExposure with
  | none => simp [h, ha]
  | some v => by_cases hv : v = 0 <;> simp [h, ha, hv]

/-- C6: for all temperatures `t1 < t2` strictly between the reference
temperatures (strictly inside (−5, 15) and equal to none of the
references), the adjusted core optimal at `t1` differs from the one at
`t2`, for every age category and gender: the interpolation is strictly
monotone, with no flat spot. -/
theorem core_optimal_strictly_interpolates (t1 t2 : ℚ) (age gender : String)
    (hl : -5 < t1) (h12 : t1 < t2) (hu : t2 < 15)
    (n1 : t1 ∉ refTemps) (n2 : t2 ∉ refTemps) :
    (getAdjustedRequirements t1 age gender).core.optimal
      ≠ (getAdjustedRequirements t2 age gender).core.optimal := by
  simp only [refTemps, List.mem_cons, List.mem_singleton, not_or] at n1 n2
  obtain ⟨a15, a10, a7, a5, a2, a0, am5⟩ := n1
  obtain ⟨b15, b10, b7, b5, b2, b0, bm5⟩ := n2
  have e1 := bandOpt_eq_closed t1 hl (by linarith) a0 a2 a5 a7 a10
  have e2 := bandOpt_eq_closed t2 (by linarith) hu b0 b2 b5 b7 b10
  have hstrict := bandOptClosed_strictAnti t1 t2 hl h12 hu
  rw [adjusted_core_optimal, adjusted_core_optimal, e1, e2]
  intro h
  have : bandOptClosed t1 = bandOptClosed t2 := by linarith
  linarith

/-- Witness for C6 at `t1 = 1`, `t2 = 3` (adult, male). -/
theorem core_optimal_strictly_interpolates_witness :
    (-5 : ℚ) < 1 ∧ (1 : ℚ) < 3 ∧ (3 : ℚ) < 15
      ∧ (1 : ℚ) ∉ refTemps ∧ (3 : ℚ) ∉ refTemps
      ∧ (getAdjustedRequirements 1 "adult" "male").core.optimal
          ≠ (getAdjustedRequirements 3 "adult" "male").core.optimal :=
  ⟨by norm_num, by norm_num, by norm_num,
   of_decide_eq_true (by with_unfolding_all rfl),
   of_decide_eq_true (by with_unfolding_all rfl),
   core_optimal_strictly_interpolates 1 3 "adult" "male" (by norm_num) (by norm_num)
     (by norm_num) (of_decide_eq_true (by with_unfolding_all rfl))
     (of_decide_eq_true (by with_unfolding_all rfl))⟩

/-! ### The calibration offset (claim C7) -/

/-- C7: for every non-zero calibration offset `k ∈ −2..2`, the
requirements used by `getRecommendations` differ from the uncalibrated
ones only in the core zone — min, max and optimal shifted by `k × 0.25`
with the min floored at zero — while the four accessory zones and all
risk metadata pass through unchanged. -/
theorem calibration_shifts_core_only (t : ℚ) (age gender : String) (k : ℤ)
    (hk : k ≠ 0) (hlo : -2 ≤ k) (hhi : k ≤ 2) :
    (recommendationRequirements t age gender (k : ℚ)).core.min
        = max 0 ((getAdjustedRequirements t age gender).core.min + (k : ℚ) * 0.25)
    ∧ (recommendationRequirements t age gender (k : ℚ)).core.max
        = (getAdjustedRequirements t age gender).core.max + (k : ℚ) * 0.25
    ∧ (recommendationRequirements t age gender (k : ℚ)).core.optimal
        = (getAdjustedRequirements t age gender).core.optimal + (k : ℚ) * 0.25
    ∧ (recommendationRequirements t age gender (k : ℚ)).head
        = (getAdjustedRequirements t age gender).head
    ∧ (recommendationRequirements t age gender (k : ℚ)).hands
        = (getAdjustedRequirements t age gender).hands
    ∧ (recommendationRequirements t age gender (k : ℚ)).neck
        = (getAdjustedRequirements t age gender).neck
    ∧ (recommendationRequirements t age gender (k : ℚ)).feet
        = (getAdjustedRequirements t age gender).feet
    ∧ (recommendationRequirements t age gender (k : ℚ)).riskLevel
        = (getAdjustedRequirements t age gender).riskLevel
    ∧ (recommendationRequirements t age gender (k : ℚ)).alert
        = (getAdjustedRequirements t age gender).alert
    ∧ (recommendationRequirements t age gender (k : ℚ)).maxExposure
        = (getAdjustedRequirements t age gender).maxExposure
    ∧ (recommendationRequirements t age gender (k : ℚ)).warning
        = (getAdjustedRequirements t age gender).warning := by
  have h : (k : ℚ) ≠ 0 := Int.cast_ne_zero.mpr hk
  unfold recommendationRequirements
  set r0 := getAdjustedRequirements t age gender with hr
  simp only []
  rw [if_pos h]
  exact ⟨rfl, rfl, rfl, rfl, rfl, rfl, rfl, rfl, rfl, rfl, rfl⟩

/-- Witness for C7 at `k = 1`, 10 °C, adult, male. -/
theorem calibration_shifts_core_only_witness :
    (1 : ℤ) ≠ 0 ∧ (-2 : ℤ) ≤ 1 ∧ (1 : ℤ) ≤ 2
    ∧ (recommendationRequirements 10 "adult" "male" ((1 : ℤ) : ℚ)).core.optimal
        = (getAdjustedRequirements 10 "adult" "male").core.optimal + ((1 : ℤ) : ℚ) * 0.25
    ∧ (recommendationRequirements 10 "adult" "male" ((1 : ℤ) : ℚ)).head
        = (getAdjustedRequirements 10 "adult" "male").head :=
  ⟨by decide, by decide, by decide,
   (calibration_shifts_core_only 10 "adult" "male" 1 (by decide) (by decide) (by decide)).2.2.1,
   (calibration_shifts_core_only 10 "adult" "male" 1 (by decide) (by decide) (by decide)).2.2.2.1⟩

/-! ### The elderly exposure reduction (claim C9) -/

/-- C9: whenever the selected band carries a (non-zero) max-exposure
duration, `getAdjustedRequirements` replaces it by the floor of 0.7 times
the band's value exactly for the `'elderly'` age category, and passes it
through unchanged for every other category. -/
theorem elderly_max_exposure_reduction (t : ℚ) (a g : String) (v : ℚ)
    (hv : (getTemperatureBand t).maxExposure = some v) (hv0 : v ≠ 0) :
    (a = "elderly" →
      (getAdjustedRequirements t a g).maxExposure = some (((v * 0.7).floor : ℤ) : ℚ))
    ∧ (a ≠ "elderly" →
      (getAdjustedRequirements t a g).maxExposure = (getTemperatureBand t).maxExposure) := by
  constructor <;> intro ha <;>
    simp [getAdjustedRequirements, shiftZone, hv, ha, hv0]

/-- Witness for C9 at −6 °C (band `'-5'`, max exposure 20): 14 minutes for
the elderly, unchanged 20 minutes for an adult. -/
theorem elderly_max_exposure_reduction_witness :
    (getTemperatureBand (-6)).maxExposure = some 20
    ∧ (getAdjustedRequirements (-6) "elderly" "female").maxExposure = some 14
    ∧ (getAdjustedRequirements (-6) "adult" "female").maxExposure = some 20 := by
  have h20 : (getTemperatureBand (-6)).maxExposure = some 20 :=
    of_decide_eq_true (by with_unfolding_all rfl)
  refine ⟨h20, ?_, ?_⟩
  · rw [(elderly_max_exposure_reduction (-6) "elderly" "female" 20 h20 (by norm_num)).1 rfl]
    exact of_decide_eq_true (by with_unfolding_all rfl)
  · rw [(elderly_max_exposure_reduction (-6) "adult" "female" 20 h20 (by norm_num)).2 (by decide)]
    exact h20

/-! ### The cold clamp and the unreachable extreme band (claim C10) -/

/-- The risk metadata of an interpolated band comes from the lower
(colder) band. -/
lemma interpBand_riskLevel (lt : ℚ) (lr : Requirements) (ut : ℚ) (ur : Requirements)
    (t : ℚ) : (interpBand lt lr ut ur t).riskLevel = lr.riskLevel := rfl

/-- A requirement set whose risk level is not `"severe"` cannot be the
`'-10'` table entry. -/
lemma ne_reqM10_of_riskLevel {r : Requirements} (hr : r.riskLevel ≠ "severe") :
    r ≠ reqM10 :=
  fun h => hr (by rw [h]; rfl)

/-- C10: any two temperatures at or below −5 yield the identical
requirement set (the `'-5'` band), and the `TEMP_REQUIREMENTS['-10']`
entry is never returned by `getTemperatureBand` for any temperature. -/
theorem cold_clamp_and_extreme_band_unreachable :
    (∀ t1 t2 : ℚ, t1 ≤ -5 → t2 ≤ -5 → getTemperatureBand t1 = getTemperatureBand t2)
    ∧ (∀ t : ℚ, getTemperatureBand t ≠ reqM10) := by
  constructor
  · intro t1 t2 h1 h2
    have e1 : getTemperatureBand t1 = reqM5 := by
      unfold getTemperatureBand
      rw [if_neg (by linarith), if_pos h1]
    have e2 : getTemperatureBand t2 = reqM5 := by
      unfold getTemperatureBand
      rw [if_neg (by linarith), if_pos h2]
    rw [e1, e2]
  · intro t h
    unfold getTemperatureBand at h
    by_cases c1 : 15 ≤ t
    · rw [if_pos c1] at h
      exact absurd h (ne_reqM10_of_riskLevel (by decide))
    rw [if_neg c1] at h
    by_cases c2 : t ≤ -5
    · rw [if_pos c2] at h
      exact absurd h (ne_reqM10_of_riskLevel (by decide))
    rw [if_neg c2] at h
    by_cases c3 : t = 15
    · rw [if_pos c3] at h
      exact absurd h (ne_reqM10_of_riskLevel (by decide))
    rw [if_neg c3] at h
    by_cases c4 : t = 10
    · rw [if_pos c4] at h
      exact absurd h (ne_reqM10_of_riskLevel (by decide))
    rw [if_neg c4] at h
    by_cases c5 : t = 7
    · rw [if_pos c5] at h
      exact absurd h (ne_reqM10_of_riskLevel (by decide))
    rw [if_neg c5] at h
    by_cases c6 : t = 5
    · rw [if_pos c6] at h
      exact absurd h (ne_reqM10_of_riskLevel (by decide))
    rw [if_neg c6] at h
    by_cases c7 : t = 2
    · rw [if_pos c7] at h
      exact absurd h (ne_reqM10_of_riskLevel (by decide))
    rw [if_neg c7] at h
    by_cases c8 : t = 0
    · rw [if_pos c8] at h
      exact absurd h (ne_reqM10_of_riskLevel (by decide))
    rw [if_neg c8] at h
    by_cases c9 : t = -5
    · rw [if_pos c9] at h
      exact absurd h (ne_reqM10_of_riskLevel (by decide))
    rw [if_neg c9] at h
    by_cases c10 : 10 ≤ t ∧ t < 15
    · rw [if_pos c10] at h
      exact absurd h (ne_reqM10_of_riskLevel (by rw [interpBand_riskLevel]; decide))
    rw [if_neg c10] at h
    by_cases c11 : 7 ≤ t ∧ t < 10
    · rw [if_pos c11] at h
      exact absurd h (ne_reqM10_of_riskLevel (by rw [interpBand_riskLevel]; decide))
    rw [if_neg c11] at h
    by_cases c12 : 5 ≤ t ∧ t < 7
    · rw [if_pos c12] at h
      exact absurd h (ne_reqM10_of_riskLevel (by rw [interpBand_riskLevel]; decide))
    rw [if_neg c12] at h
    by_cases c13 : 2 ≤ t ∧ t < 5
    · rw [if_pos c13] at h
      exact absurd h (ne_reqM10_of_riskLevel (by rw [interpBand_riskLevel]; decide))
    rw [if_neg c13] at h
    by_cases c14 : 0 ≤ t ∧ t < 2
    · rw [if_pos c14] at h
      exact absurd h (ne_reqM10_of_riskLevel (by rw [interpBand_riskLevel]; decide))
    rw [if_neg c14] at h
    by_cases c15 : -5 ≤ t ∧ t < 0
    · rw [if_pos c15] at h
      exact absurd h (ne_reqM10_of_riskLevel (by rw [interpBand_riskLevel]; decide))
    rw [if_neg c15] at h
    exact absurd h (ne_reqM10_of_riskLevel (by decide))

/-- Witness for C10: −6 °C and −20 °C agree, and 3 °C does not produce the
extreme band. -/
theorem cold_clamp_and_extreme_band_unreachable_witness :
    getTemperatureBand (-6) = getTemperatureBand (-20)
    ∧ getTemperatureBand 3 ≠ reqM10 :=
  ⟨cold_clamp_and_extreme_band_unreachable.1 (-6) (-20) (by norm_num) (by norm_num),
   cold_clamp_and_extreme_band_unreachable.2 3⟩

/-! ### The standalone minimal base garment (claim C4) -/

/-- C4 (code bug): the catalog's standalone minimal base garment has key
`'vest'` and insulation 0.15, yet `isValidCombination` accepts an outfit
whose core zone consists of that garment alone, because the
vest-cannot-be-worn-alone guard in `hasValidBaseLayers` tests for the key
`'tank-top'`, which no catalog garment carries.  (The claim — and the
source's own comment and rejection text — say such an outfit must be
rejected.) -/
theorem vest_alone_is_accepted :
    isValidCombination
        { core := [vest], head := [], hands := [], neck := [], feet := []
          totalCLO := 0.15, coreCLO := 0.15 } true 10 "adult"
      = { isValid := true, reason := none }
    ∧ vest.key = "vest" ∧ vest.clo = 0.15 ∧ vest.category = "base"
    ∧ baseCatalog.all (fun g => !(g.key == "tank-top")) = true
    ∧ (hasValidBaseLayers [vest] 2).isValid = true :=
  of_decide_eq_true (by with_unfolding_all rfl)

/-! ### The `totalCLO` invariant (claim C2) -/

/-- `sumClo` distributes over list concatenation. -/
lemma sumClo_append (l1 l2 : List Garment) :
    sumClo (l1 ++ l2) = sumClo l1 + sumClo l2 := by
  simp [sumClo]

/-- Any candidate produced at a `zoneRecurse` node is either the record of
the node's own subset or comes from the extension loop. -/
lemma zoneRecurse_mem_structure (isCore : Bool) (maxB : Nat) (rmin rmax opt : ℚ)
    (rest current : List Garment) (clo : ℚ) (cand : Candidate)
    (h : cand ∈ zoneRecurse isCore maxB rmin rmax opt rest current clo) :
    cand = { items := current, clo := clo, score := |opt - clo| }
      ∨ cand ∈ zoneTryEach isCore maxB rmin rmax opt rest current clo := by
  unfold zoneRecurse at h
  by_cases hA : (isCore &&
      ((current.filter (fun i => i.category == "base")).length > maxB
       || (current.filter (fun i => i.category == "mid")).length > 2
       || (current.filter (fun i => i.category == "outer")).length > 1)) = true
  · rw [if_pos hA] at h
    exact absurd h (List.not_mem_nil cand)
  rw [if_neg hA] at h
  by_cases hB : (isCore && (current.filter (fun i => i.category == "base")).length ≥ 2
        && !((current.filter (fun i => i.category == "base")).any (fun i => i.key == "t-shirt"))) = true
  · rw [if_pos hB] at h
    exact absurd h (List.not_mem_nil cand)
  rw [if_neg hB] at h
  simp only [] at h
  by_cases hC : rmin ≤ clo ∧ clo ≤ rmax * 1.3
  · rw [if_pos hC] at h
    by_cases hD : clo > rmax * 1.5 ∨ rest.isEmpty = true
    · rw [if_pos hD] at h
      simp at h
      exact Or.inl (by rw [h])
    · rw [if_neg hD] at h
      rcases List.mem_append.mp h with h1 | h2
      · simp at h1
        exact Or.inl (by rw [h1])
      · exact Or.inr h2
  · rw [if_neg hC] at h
    by_cases hD : clo > rmax * 1.5 ∨ rest.isEmpty = true
    · rw [if_pos hD] at h
      exact absurd h (List.not_mem_nil cand)
    · rw [if_neg hD] at h
      rcases List.mem_append.mp h with h1 | h2
      · exact absurd h1 (List.not_mem_nil cand)
      · exact Or.inr h2

/-- Any candidate produced by the extension loop comes from recursing on
the first non-skipped item or from the rest of the loop. -/
lemma zoneTryEach_mem_structure (isCore : Bool) (maxB : Nat) (rmin rmax opt : ℚ)
    (nextItem : Garment) (r current : List Garment) (clo : ℚ) (cand : Candidate)
    (h : cand ∈ zoneTryEach isCore maxB rmin rmax opt (nextItem :: r) current clo) :
    cand ∈ zoneRecurse isCore maxB rmin rmax opt r (current ++ [nextItem]) (clo + nextItem.clo)
      ∨ cand ∈ zoneTryEach isCore maxB rmin rmax opt r current clo := by
  unfold zoneTryEach at h
  simp only [] at h
  rcases List.mem_append.mp h with h1 | h2
  · by_cases hskip : (isCore &&
        ((nextItem.category == "base" && (current.filter (fun i => i.category == "base")).length ≥ maxB)
         || (nextItem.category == "base" && (current.filter (fun i => i.category == "base")).length == 1
             && !((current.filter (fun i => i.category == "base")).any (fun i => i.key == "t-shirt"))
             && !(nextItem.key == "t-shirt"))
         || (nextItem.category == "mid" && (current.filter (fun i => i.category == "mid")).length ≥ 2)
         || (nextItem.category == "outer" && (current.filter (fun i => i.category == "outer")).length ≥ 1))) = true
    · rw [if_pos hskip] at h1
      exact absurd h1 (List.not_mem_nil cand)
    · rw [if_neg hskip] at h1
      exact Or.inl h1
  · exact Or.inr h2

/-- The extension loop preserves the accumulator invariant: every recorded
candidate's `clo` equals the sum of its items' insulation. -/
lemma zoneTryEach_clo (isCore : Bool) (maxB : Nat) (rmin rmax opt : ℚ) :
    ∀ (rest current : List Garment) (clo : ℚ), clo = sumClo current →
      ∀ cand ∈ zoneTryEach isCore maxB rmin rmax opt rest current clo,
        cand.clo = sumClo cand.items := by
  intro rest
  induction rest with
  | nil =>
    intro current clo hclo cand hcand
    unfold zoneTryEach at hcand
    exact absurd hcand (List.not_mem_nil cand)
  | cons x r ihr =>
    intro current clo hclo cand hcand
    rcases zoneTryEach_mem_structure isCore maxB rmin rmax opt x r current clo cand hcand
      with h1 | h2
    · have hclo' : clo + x.clo = sumClo (current ++ [x]) := by
        rw [sumClo_append, hclo]
        simp [sumClo]
      rcases zoneRecurse_mem_structure isCore maxB rmin rmax opt r (current ++ [x])
        (clo + x.clo) cand h1 with hc | hm
      · rw [hc]
        exact hclo'
      · exact ihr (current ++ [x]) (clo + x.clo) hclo' cand hm
    · exact ihr current clo hclo cand h2

/-- Every candidate of the zone enumeration sums its items' insulation. -/
lemma zoneRecurse_clo (isCore : Bool) (maxB : Nat) (rmin rmax opt : ℚ)
    (rest current : List Garment) (clo : ℚ) (hclo : clo = sumClo current) :
    ∀ cand ∈ zoneRecurse isCore maxB rmin rmax opt rest current clo,
      cand.clo = sumClo cand.items := by
  intro cand hcand
  rcases zoneRecurse_mem_structure isCore maxB rmin rmax opt rest current clo cand hcand
    with hc | hm
  · rw [hc]
    exact hclo
  · exact zoneTryEach_clo isCore maxB rmin rmax opt rest current clo hclo cand hm

/-- Every candidate returned by `generateZoneCombinations` sums its items'
insulation. -/
lemma generateZone_clo (items : List Garment) (req : ZoneReq) (temp : ℚ) (age : String) :
    ∀ cand ∈ generateZoneCombinations items req temp age, cand.clo = sumClo cand.items := by
  intro cand hcand
  unfold generateZoneCombinations at hcand
  by_cases h0 : req.max = 0
  · rw [if_pos h0] at hcand
    simp at hcand
    rw [hcand]
    simp [sumClo]
  · rw [if_neg h0] at hcand
    simp only [] at hcand
    have h1 := List.take_subset 30 _ hcand
    have h2 := List.mem_mergeSort.mp h1
    exact zoneRecurse_clo _ _ req.min req.max req.optimal items [] 0 (by simp [sumClo]) cand h2

/-- Reading the updated object after a recalculation yields the freshly
summed insulation figures. -/
lemma readObj_recalcCLO (s : Store) (u : Nat) :
    readObj (recalcCLO s u) u
      = { readObj s u with fields := { (readObj s u).fields with
          totalCLO := sumClo (readArr s (readObj s u).coreRef ++ readArr s (readObj s u).headRef
            ++ readArr s (readObj s u).handsRef ++ readArr s (readObj s u).neckRef
            ++ readArr s (readObj s u).feetRef)
          coreCLO := sumClo (readArr s (readObj s u).coreRef) } } := by
  simp [recalcCLO, readObj, writeObj]

/-- C2: every outfit emitted by `findCombinations` carries a `totalCLO`
equal to the summed insulation of all garments across its five zones, and
the outfit returned by `replaceItem` leaves the call with `totalCLO` and
`coreCLO` recomputed from the final zone arrays (the last recalculation
happens after every structural change, including the accessory removals
and additions of the substitution rebalancing). -/
theorem totalCLO_is_recomputed_sum :
    (∀ (requirements : Requirements) (maxC : Nat) (temp : ℚ) (age : String),
      (findCombinations requirements maxC temp age).all
        (fun c => c.totalCLO == sumClo (allGarments c)) = true)
    ∧ (∀ (s : Store) (recRef : Nat) (oldItem newItem : Garment),
      let res := replaceItemH s recRef oldItem newItem
      let obj := readObj res.1 res.2
      obj.fields.totalCLO
        = sumClo (readArr res.1 obj.coreRef ++ readArr res.1 obj.headRef
            ++ readArr res.1 obj.handsRef ++ readArr res.1 obj.neckRef
            ++ readArr res.1 obj.feetRef)
      ∧ obj.fields.coreCLO = sumClo (readArr res.1 obj.coreRef)) := by
  constructor
  · intro requirements maxC temp age
    rw [List.all_eq_true]
    intro c hc
    unfold findCombinations at hc
    simp only [] at hc
    have hc2 := List.take_subset maxC _ hc
    rw [List.mem_flatMap] at hc2
    obtain ⟨co, hco, hc3⟩ := hc2
    rw [List.mem_flatMap] at hc3
    obtain ⟨hd, hhd, hc4⟩ := hc3
    rw [List.mem_flatMap] at hc4
    obtain ⟨ha, hha, hc5⟩ := hc4
    rw [List.mem_flatMap] at hc5
    obtain ⟨ne, hne, hc6⟩ := hc5
    rw [List.mem_map] at hc6
    obtain ⟨fe, hfe, hceq⟩ := hc6
    have eco := generateZone_clo _ _ temp age co (List.take_subset 20 _ hco)
    have ehd := generateZone_clo _ _ temp age hd (List.take_subset 3 _ hhd)
    have eha := generateZone_clo _ _ temp age ha (List.take_subset 3 _ hha)
    have ene := generateZone_clo _ _ temp age ne (List.take_subset 3 _ hne)
    have efe := generateZone_clo _ _ temp age fe (List.take_subset 3 _ hfe)
    rw [beq_iff_eq, ← hceq]
    show co.clo + hd.clo + ha.clo + ne.clo + fe.clo
      = sumClo (co.items ++ hd.items ++ ha.items ++ ne.items ++ fe.items)
    rw [sumClo_append, sumClo_append, sumClo_append, sumClo_append,
        eco, ehd, eha, ene, efe]
  · intro s recRef oldItem newItem
    unfold replaceItemH
    simp only []
    rw [readObj_recalcCLO]
    constructor <;> rfl

/-! ### Every recommendation passes the validator (claim C1) -/

set_option maxHeartbeats 2000000 in
/-- `isValidCombination` either returns the clean acceptance (no rejection
reason) or a result flagged invalid. -/
lemma validationResult_cases (c : Combo) (d : Bool) (t : ℚ) (a : String) :
    isValidCombination c d t a = { isValid := true, reason := none }
      ∨ (isValidCombination c d t a).isValid = false := by
  unfold isValidCombination
  simp only []
  split_ifs <;> simp

/-- A successful second pick of the diversity selection is drawn from the
candidate list (or was the incoming best). -/
lemma pickMostDiverse_mem (first : Outfit) :
    ∀ (l : List Outfit) (best : Option Outfit) (m : ℚ) (o : Outfit),
      pickMostDiverse first best m l = some o → o ∈ l ∨ best = some o := by
  intro l
  induction l with
  | nil => intro best m o h; exact Or.inr h
  | cons c rest ih =>
    intro best m o h
    unfold pickMostDiverse at h
    by_cases hd : calculateDiversity first c > m
    · rw [if_pos hd] at h
      rcases ih (some c) _ o h with hm | hb
      · exact Or.inl (List.mem_cons_of_mem c hm)
      · simp at hb
        subst hb
        exact Or.inl (List.mem_cons_self _ _)
    · rw [if_neg hd] at h
      rcases ih best m o h with hm | hb
      · exact Or.inl (List.mem_cons_of_mem c hm)
      · exact Or.inr hb

/-- A successful third pick of the diversity selection is drawn from the
candidate list (or was the incoming best). -/
lemma pickMaxTotal_mem (first second : Outfit) (selected : List Outfit) :
    ∀ (l : List Outfit) (best : Option Outfit) (m : ℚ) (o : Outfit),
      pickMaxTotal first second selected best m l = some o → o ∈ l ∨ best = some o := by
  intro l
  induction l with
  | nil => intro best m o h; exact Or.inr h
  | cons c rest ih =>
    intro best m o h
    unfold pickMaxTotal at h
    by_cases hsel : selected.contains c = true
    · rw [if_pos hsel] at h
      rcases ih best m o h with hm | hb
      · exact Or.inl (List.mem_cons_of_mem c hm)
      · exact Or.inr hb
    · rw [if_neg hsel] at h
      simp only [] at h
      by_cases ht : calculateDiversity first c + calculateDiversity second c > m
      · rw [if_pos ht] at h
        rcases ih (some c) _ o h with hm | hb
        · exact Or.inl (List.mem_cons_of_mem c hm)
        · simp at hb
          subst hb
          exact Or.inl (List.mem_cons_self _ _)
      · rw [if_neg ht] at h
        rcases ih best m o h with hm | hb
        · exact Or.inl (List.mem_cons_of_mem c hm)
        · exact Or.inr hb

/-- Every outfit returned by the diversity selection is one of its
inputs. -/
lemma selectDiverse_subset (l : List Outfit) (o : Outfit)
    (h : o ∈ selectDiverseCombinations l) : o ∈ l := by
  match l with
  | [] => exact absurd h (List.not_mem_nil o)
  | [x] => exact h
  | x :: y :: rest =>
    unfold selectDiverseCombinations at h
    simp only [] at h
    by_cases hlen : (x :: y :: rest).length > 2
    · rw [if_pos hlen] at h
      cases hsec : pickMostDiverse x none (-1) (y :: rest) with
      | none =>
        rw [hsec] at h
        simp at h
        subst h
        exact List.mem_cons_self _ _
      | some s =>
        rw [hsec] at h
        have hs : s ∈ y :: rest := by
          rcases pickMostDiverse_mem x (y :: rest) none (-1) s hsec with hm | hb
          · exact hm
          · exact absurd hb (by simp)
        rcases List.mem_append.mp h with h1 | h2
        · simp at h1
          rcases h1 with rfl | rfl
          · exact List.mem_cons_self _ _
          · exact List.mem_cons_of_mem x hs
        · cases hthird : pickMaxTotal x s (x :: (some s).toList) none (-1) (y :: rest) with
          | none =>
            rw [hthird] at h2
            exact absurd h2 (by simp)
          | some th =>
            rw [hthird] at h2
            simp at h2
            have hthm : th ∈ y :: rest := by
              rcases pickMaxTotal_mem x s _ (y :: rest) none (-1) th hthird with hm | hb
              · exact hm
              · exact absurd hb (by simp)
            rw [h2]
            exact List.mem_cons_of_mem x hthm
    · rw [if_neg hlen] at h
      cases hsec : pickMostDiverse x none (-1) (y :: rest) with
      | none =>
        rw [hsec] at h
        simp at h
        subst h
        exact List.mem_cons_self _ _
      | some s =>
        rw [hsec] at h
        have hs : s ∈ y :: rest := by
          rcases pickMostDiverse_mem x (y :: rest) none (-1) s hsec with hm | hb
          · exact hm
          · exact absurd hb (by simp)
        simp at h
        rcases h with rfl | rfl
        · exact List.mem_cons_self _ _
        · exact List.mem_cons_of_mem x hs

/-- C1: every outfit in the list returned by `getRecommendations` passes
`isValidCombination` cleanly — accepted, with no rejection reason — for
every temperature, age category, gender and calibration offset. -/
theorem recommendations_pass_validator (temp : ℚ) (age gender : String)
    (warmthAdjustment : ℚ) :
    (getRecommendations temp age gender warmthAdjustment).all
      (fun o => isValidCombination o.toCombo true temp age
        == ({ isValid := true, reason := none } : ValidationResult)) = true := by
  rw [List.all_eq_true]
  intro o ho
  unfold getRecommendations at ho
  simp only [] at ho
  generalize hcombos : findCombinations
    (recommendationRequirements temp age gender warmthAdjustment) 50 temp age = combos at ho
  set valid := combos.filter
    (fun combo => (isValidCombination combo true temp age).isValid) with hv
  set sorted := (valid.map
    (attachScores (recommendationRequirements temp age gender warmthAdjustment))).mergeSort
      recommendSortLE with hsort
  by_cases hempty : sorted.isEmpty = true
  · rw [if_pos hempty] at ho
    exact absurd ho (List.not_mem_nil o)
  · rw [if_neg hempty] at ho
    have h1 := selectDiverse_subset _ o ho
    rw [hsort] at h1
    have h2 := List.mem_mergeSort.mp h1
    rw [List.mem_map] at h2
    obtain ⟨c, hc, hoc⟩ := h2
    rw [hv, List.mem_filter] at hc
    have hvalid := hc.2
    have htc : o.toCombo = c := by rw [← hoc]; rfl
    rw [beq_iff_eq, htc]
    rcases validationResult_cases c true temp age with h | h
    · exact h
    · rw [hvalid] at h
      exact absurd h (by decide)


/-! ### Copy-on-write of the substitution engine (claim C8)

`replaceItem` must never mutate the original recommendation: it spreads
into a fresh object with freshly copied arrays and all subsequent writes
target only those fresh references.  The lemmas below push a frame
predicate through every phase of `replaceItemH`. -/


lemma untouched_refl (n m : Nat) (s : Store) : Untouched n m s s :=
  ⟨fun _ _ => rfl, fun _ _ => rfl⟩

lemma untouched_trans {n m : Nat} {s1 s2 s3 : Store}
    (h1 : Untouched n m s1 s2) (h2 : Untouched n m s2 s3) : Untouched n m s1 s3 :=
  ⟨fun r hr => (h2.1 r hr).trans (h1.1 r hr), fun q hq => (h2.2 q hq).trans (h1.2 q hq)⟩

lemma untouched_writeArr (n m : Nat) (s : Store) (r : Nat) (v : List Garment)
    (hr : n ≤ r) : Untouched n m s (writeArr s r v) := by
  refine ⟨fun r' hr' => ?_, fun q hq => rfl⟩
  simp [writeArr]
  intro h
  omega

lemma untouched_writeObj (n m : Nat) (s : Store) (q : Nat) (v : OutfitObj)
    (hq : m ≤ q) : Untouched n m s (writeObj s q v) := by
  refine ⟨fun r hr => rfl, fun q' hq' => ?_⟩
  simp [writeObj]
  intro h
  omega

lemma sameRefs_refl (o : OutfitObj) : SameRefs o o := ⟨rfl, rfl, rfl, rfl, rfl⟩

lemma sameRefs_trans {o1 o2 o3 : OutfitObj} (h1 : SameRefs o1 o2) (h2 : SameRefs o2 o3) :
    SameRefs o1 o3 :=
  ⟨h1.1.trans h2.1, h1.2.1.trans h2.2.1, h1.2.2.1.trans h2.2.2.1,
   h1.2.2.2.1.trans h2.2.2.2.1, h1.2.2.2.2.trans h2.2.2.2.2⟩

lemma goodObj_of_sameRefs {n m u : Nat} {s s' : Store} (hg : GoodObj n m u s)
    (hs : SameRefs (s'.objs u) (s.objs u)) : GoodObj n m u s' := by
  refine ⟨hg.1, ?_, ?_, ?_, ?_, ?_⟩
  · rw [hs.1]; exact hg.2.1
  · rw [hs.2.1]; exact hg.2.2.1
  · rw [hs.2.2.1]; exact hg.2.2.2.1
  · rw [hs.2.2.2.1]; exact hg.2.2.2.2.1
  · rw [hs.2.2.2.2]; exact hg.2.2.2.2.2

lemma zoneRefOf_ge {n m u : Nat} {s : Store} (hg : GoodObj n m u s) (z : String) :
    n ≤ zoneRefOf (readObj s u) z := by
  unfold zoneRefOf readObj
  split_ifs
  · exact hg.2.1
  · exact hg.2.2.1
  · exact hg.2.2.2.1
  · exact hg.2.2.2.2.1
  · exact hg.2.2.2.2.2

lemma accZoneRefOf_ge {n m u : Nat} {s : Store} (hg : GoodObj n m u s) (z : String) :
    n ≤ accZoneRefOf (readObj s u) z := by
  unfold accZoneRefOf readObj
  split_ifs
  · exact hg.2.2.1
  · exact hg.2.2.2.1
  · exact hg.2.2.2.2.1
  · exact hg.2.2.2.2.2

lemma rebalanceAddRefOf_ge {n m u : Nat} {s : Store} (hg : GoodObj n m u s) (z : String) :
    n ≤ rebalanceAddRefOf (readObj s u) z := by
  unfold rebalanceAddRefOf readObj
  split_ifs
  · exact hg.2.2.1
  · exact hg.2.2.2.1
  · exact hg.2.2.2.2.1

lemma removeOldItem_frame {n m u : Nat} {s : Store} (old : Garment)
    (hg : GoodObj n m u s) :
    Untouched n m s (removeOldItem s u old)
      ∧ SameRefs ((removeOldItem s u old).objs u) (s.objs u) := by
  unfold removeOldItem
  simp only []
  cases h : (readArr s (zoneRefOf (readObj s u) old.zone)).findIdx?
      (fun item => item.key == old.key) with
  | none => exact ⟨untouched_refl n m s, sameRefs_refl _⟩
  | some idx =>
    exact ⟨untouched_writeArr n m s _ _ (zoneRefOf_ge hg old.zone), sameRefs_refl _⟩

lemma addNewItem_frame {n m u : Nat} {s : Store} (newItem : Garment)
    (hg : GoodObj n m u s) :
    Untouched n m s (addNewItem s u newItem)
      ∧ SameRefs ((addNewItem s u newItem).objs u) (s.objs u) := by
  unfold addNewItem
  exact ⟨untouched_writeArr n m s _ _ (zoneRefOf_ge hg newItem.zone), sameRefs_refl _⟩

lemma removeAccessoriesLoop_frame {n m u : Nat} :
    ∀ (entries : List RemEntry) (s : Store) (cur stopAt : ℚ), GoodObj n m u s →
      Untouched n m s (removeAccessoriesLoop s u cur stopAt entries).1
        ∧ (removeAccessoriesLoop s u cur stopAt entries).1.objs = s.objs := by
  intro entries
  induction entries with
  | nil =>
    intro s cur stopAt hg
    exact ⟨untouched_refl n m s, rfl⟩
  | cons e rest ih =>
    intro s cur stopAt hg
    unfold removeAccessoriesLoop
    by_cases hstop : cur ≤ stopAt
    · rw [if_pos hstop]
      exact ⟨untouched_refl n m s, rfl⟩
    · rw [if_neg hstop]
      simp only []
      cases h : (readArr s (accZoneRefOf (readObj s u) e.zone)).findIdx?
          (fun item => item.key == e.item.key) with
      | none => exact ih s cur stopAt hg
      | some idx =>
        have hw := untouched_writeArr n m s (accZoneRefOf (readObj s u) e.zone)
          ((readArr s (accZoneRefOf (readObj s u) e.zone)).eraseIdx idx)
          (accZoneRefOf_ge hg e.zone)
        have hg' : GoodObj n m u (writeArr s (accZoneRefOf (readObj s u) e.zone)
            ((readArr s (accZoneRefOf (readObj s u) e.zone)).eraseIdx idx)) := hg
        have := ih _ (cur - e.item.clo * 0.3) stopAt hg'
        exact ⟨untouched_trans hw this.1, this.2⟩


lemma pushAccessory_frame {n m u : Nat} {s : Store} (item : Garment) (z : String)
    (hg : GoodObj n m u s) :
    Untouched n m s (pushAccessory s u item z)
      ∧ (pushAccessory s u item z).objs = s.objs := by
  unfold pushAccessory
  simp only []
  split_ifs
  · exact ⟨untouched_writeArr n m s _ _ hg.2.2.1, rfl⟩
  · exact ⟨untouched_writeArr n m s _ _ hg.2.2.2.1, rfl⟩
  · exact ⟨untouched_writeArr n m s _ _ hg.2.2.2.2.1, rfl⟩
  · exact ⟨untouched_writeArr n m s _ _ hg.2.2.2.2.2, rfl⟩
  · exact ⟨untouched_refl n m s, rfl⟩

lemma pushList_frame {n m u : Nat} :
    ∀ (lst : List (Garment × String)) (s : Store), GoodObj n m u s →
      Untouched n m s (lst.foldl (fun st p => pushAccessory st u p.1 p.2) s)
        ∧ (lst.foldl (fun st p => pushAccessory st u p.1 p.2) s).objs = s.objs := by
  intro lst
  induction lst with
  | nil => intro s hg; exact ⟨untouched_refl n m s, rfl⟩
  | cons p rest ih =>
    intro s hg
    simp only [List.foldl_cons]
    have h1 := pushAccessory_frame p.1 p.2 hg
    have hg2 : GoodObj n m u (pushAccessory s u p.1 p.2) := by
      unfold GoodObj
      rw [h1.2]
      exact hg
    have h2 := ih (pushAccessory s u p.1 p.2) hg2
    exact ⟨untouched_trans h1.1 h2.1, h2.2.trans h1.2⟩

lemma upgradeAdjust_frame {n m u : Nat} {s : Store} (hg : GoodObj n m u s) :
    Untouched n m s (upgradeAdjust s u) ∧ (upgradeAdjust s u).objs = s.objs := by
  unfold upgradeAdjust
  simp only []
  split_ifs with h
  · exact removeAccessoriesLoop_frame _ s _ _ hg
  · exact ⟨untouched_refl n m s, rfl⟩

lemma downgradeAdjust_frame {n m u : Nat} {s : Store} (hg : GoodObj n m u s) :
    Untouched n m s (downgradeAdjust s u) ∧ (downgradeAdjust s u).objs = s.objs := by
  unfold downgradeAdjust
  simp only []
  by_cases h : sumClo (readArr s (readObj s u).coreRef) < (readObj s u).fields.requirements.core.min
  · rw [if_pos h]
    exact pushList_frame _ s hg
  · rw [if_neg h]
    exact ⟨untouched_refl n m s, rfl⟩

lemma outerAdjust_frame {n m u : Nat} {s : Store} (oldItem newItem : Garment)
    (hg : GoodObj n m u s) :
    Untouched n m s (outerAdjust s u oldItem newItem)
      ∧ (outerAdjust s u oldItem newItem).objs = s.objs := by
  unfold outerAdjust
  simp only []
  by_cases hout : oldItem.category = "outer" ∧ newItem.category = "outer"
  · rw [if_pos hout]
    have h1 : Untouched n m s (if (decide (newItem.clo - oldItem.clo ≥ 0.15)
          || decide (newItem.clo ≥ 0.45)) = true then upgradeAdjust s u else s)
        ∧ (if (decide (newItem.clo - oldItem.clo ≥ 0.15)
          || decide (newItem.clo ≥ 0.45)) = true then upgradeAdjust s u else s).objs = s.objs := by
      by_cases hup : (decide (newItem.clo - oldItem.clo ≥ 0.15)
          || decide (newItem.clo ≥ 0.45)) = true
      · rw [if_pos hup]
        exact upgradeAdjust_frame hg
      · rw [if_neg hup]
        exact ⟨untouched_refl n m s, rfl⟩
    have hg1 : GoodObj n m u (if (decide (newItem.clo - oldItem.clo ≥ 0.15)
        || decide (newItem.clo ≥ 0.45)) = true then upgradeAdjust s u else s) := by
      unfold GoodObj
      rw [h1.2]
      exact hg
    by_cases hdn : newItem.clo - oldItem.clo ≤ -0.15
    · rw [if_pos hdn]
      have h2 := downgradeAdjust_frame hg1
      exact ⟨untouched_trans h1.1 h2.1, h2.2.trans h1.2⟩
    · rw [if_neg hdn]
      exact h1
  · rw [if_neg hout]
    exact ⟨untouched_refl n m s, rfl⟩

lemma recalcCLO_frame {n m u : Nat} {s : Store} (hg : GoodObj n m u s) :
    Untouched n m s (recalcCLO s u)
      ∧ SameRefs ((recalcCLO s u).objs u) (s.objs u) := by
  unfold recalcCLO
  simp only []
  refine ⟨untouched_writeObj n m s u _ hg.1, ?_⟩
  simp [writeObj, readObj]
  exact ⟨rfl, rfl, rfl, rfl, rfl⟩

lemma rebalanceRemoveLoop_frame {n m u : Nat} :
    ∀ (entries : List RemovableItem) (s : Store) (optimal threshold cd : ℚ),
      GoodObj n m u s →
      Untouched n m s (rebalanceRemoveLoop s u optimal threshold cd entries)
        ∧ SameRefs ((rebalanceRemoveLoop s u optimal threshold cd entries).objs u) (s.objs u) := by
  intro entries
  induction entries with
  | nil => intro s optimal threshold cd hg; exact ⟨untouched_refl n m s, sameRefs_refl _⟩
  | cons e rest ih =>
    intro s optimal threshold cd hg
    unfold rebalanceRemoveLoop
    simp only []
    by_cases hcond : |(readObj s u).fields.coreCLO - e.clo - optimal| < |cd|
        ∧ (readObj s u).fields.coreCLO - e.clo - optimal ≥ -threshold
    · rw [if_pos hcond]
      cases hidx : (readArr s (zoneRefOf (readObj s u) e.zone)).findIdx?
          (fun i => i.key == e.item.key) with
      | none => exact ih s optimal threshold cd hg
      | some idx =>
        have hw1 := untouched_writeArr n m s (zoneRefOf (readObj s u) e.zone)
          ((readArr s (zoneRefOf (readObj s u) e.zone)).eraseIdx idx)
          (zoneRefOf_ge hg e.zone)
        refine ⟨untouched_trans hw1 (untouched_writeObj n m _ u _ hg.1), ?_⟩
        simp [writeObj, writeArr, readObj]
        exact ⟨rfl, rfl, rfl, rfl, rfl⟩
    · rw [if_neg hcond]
      exact ih s optimal threshold cd hg

lemma rebalanceAddPhase_frame (n m u : Nat) (s1 : Store) (optimal cd : ℚ)
    (padds : List RemovableItem) (hg1 : GoodObj n m u s1) :
    Untouched n m s1 (if cd < -(0.20 : ℚ) then
        (match bestAddLoop none |cd| optimal 0.20 (readObj s1 u).fields.coreCLO padds with
         | some e =>
           writeObj (writeArr s1 (rebalanceAddRefOf (readObj s1 u) e.zone)
               (readArr s1 (rebalanceAddRefOf (readObj s1 u) e.zone) ++ [e.item])) u
             { readObj s1 u with fields := { (readObj s1 u).fields with
                 coreCLO := (readObj s1 u).fields.coreCLO + e.clo } }
         | none => s1)
      else s1)
    ∧ SameRefs ((if cd < -(0.20 : ℚ) then
        (match bestAddLoop none |cd| optimal 0.20 (readObj s1 u).fields.coreCLO padds with
         | some e =>
           writeObj (writeArr s1 (rebalanceAddRefOf (readObj s1 u) e.zone)
               (readArr s1 (rebalanceAddRefOf (readObj s1 u) e.zone) ++ [e.item])) u
             { readObj s1 u with fields := { (readObj s1 u).fields with
                 coreCLO := (readObj s1 u).fields.coreCLO + e.clo } }
         | none => s1)
      else s1).objs u) (s1.objs u) := by
  by_cases hcold : cd < -(0.20 : ℚ)
  · rw [if_pos hcold]
    cases hba : bestAddLoop none |cd| optimal 0.20 (readObj s1 u).fields.coreCLO padds with
    | none => exact ⟨untouched_refl n m s1, sameRefs_refl _⟩
    | some e =>
      have hw1 := untouched_writeArr n m s1 (rebalanceAddRefOf (readObj s1 u) e.zone)
        (readArr s1 (rebalanceAddRefOf (readObj s1 u) e.zone) ++ [e.item])
        (rebalanceAddRefOf_ge hg1 e.zone)
      refine ⟨untouched_trans hw1 (untouched_writeObj n m _ u _ hg1.1), ?_⟩
      simp [writeObj, writeArr, readObj]
      exact ⟨rfl, rfl, rfl, rfl, rfl⟩
  · rw [if_neg hcold]
    exact ⟨untouched_refl n m s1, sameRefs_refl _⟩

lemma autoRebalance_frame {n m u : Nat} {s : Store} (hg : GoodObj n m u s) :
    Untouched n m s (autoRebalance s u)
      ∧ SameRefs ((autoRebalance s u).objs u) (s.objs u) := by
  unfold autoRebalance
  simp only []
  have h1 : Untouched n m s (if (readObj s u).fields.coreCLO
          - (readObj s u).fields.requirements.core.optimal > (0.20 : ℚ) then
        rebalanceRemoveLoop s u (readObj s u).fields.requirements.core.optimal 0.20
          ((readObj s u).fields.coreCLO - (readObj s u).fields.requirements.core.optimal)
          ((((readArr s (readObj s u).coreRef).filter (fun i => i.category == "mid")).map
              (fun i => ({ item := i, zone := "core", clo := i.clo } : RemovableItem)) ++
            (readArr s (readObj s u).headRef).map
              (fun i => ({ item := i, zone := "head", clo := i.clo } : RemovableItem)) ++
            (readArr s (readObj s u).handsRef).map
              (fun i => ({ item := i, zone := "hands", clo := i.clo } : RemovableItem)) ++
            (readArr s (readObj s u).neckRef).map
              (fun i => ({ item := i, zone := "neck", clo := i.clo } : RemovableItem)) ++
            (readArr s (readObj s u).feetRef).map
              (fun i => ({ item := i, zone := "feet", clo := i.clo } : RemovableItem))).mergeSort
            (fun a b => decide (a.clo ≤ b.clo)))
      else s)
      ∧ SameRefs ((if (readObj s u).fields.coreCLO
          - (readObj s u).fields.requirements.core.optimal > (0.20 : ℚ) then
        rebalanceRemoveLoop s u (readObj s u).fields.requirements.core.optimal 0.20
          ((readObj s u).fields.coreCLO - (readObj s u).fields.requirements.core.optimal)
          ((((readArr s (readObj s u).coreRef).filter (fun i => i.category == "mid")).map
              (fun i => ({ item := i, zone := "core", clo := i.clo } : RemovableItem)) ++
            (readArr s (readObj s u).headRef).map
              (fun i => ({ item := i, zone := "head", clo := i.clo } : RemovableItem)) ++
            (readArr s (readObj s u).handsRef).map
              (fun i => ({ item := i, zone := "hands", clo := i.clo } : RemovableItem)) ++
            (readArr s (readObj s u).neckRef).map
              (fun i => ({ item := i, zone := "neck", clo := i.clo } : RemovableItem)) ++
            (readArr s (readObj s u).feetRef).map
              (fun i => ({ item := i, zone := "feet", clo := i.clo } : RemovableItem))).mergeSort
            (fun a b => decide (a.clo ≤ b.clo)))
      else s).objs u) (s.objs u) := by
    by_cases hwarm : (readObj s u).fields.coreCLO
        - (readObj s u).fields.requirements.core.optimal > (0.20 : ℚ)
    · rw [if_pos hwarm]
      exact rebalanceRemoveLoop_frame _ s _ _ _ hg
    · rw [if_neg hwarm]
      exact ⟨untouched_refl n m s, sameRefs_refl _⟩
  have hg1 := goodObj_of_sameRefs hg h1.2
  refine ⟨untouched_trans h1.1 (rebalanceAddPhase_frame n m u _
      ((readObj s u).fields.requirements.core.optimal)
      ((readObj s u).fields.coreCLO - (readObj s u).fields.requirements.core.optimal)
      _ hg1).1,
    sameRefs_trans (rebalanceAddPhase_frame n m u _
      ((readObj s u).fields.requirements.core.optimal)
      ((readObj s u).fields.coreCLO - (readObj s u).fields.requirements.core.optimal)
      _ hg1).2 h1.2⟩



lemma copyOutfit_spec (s : Store) (recRef : Nat) :
    (copyOutfit s recRef).2 = s.nextObj
    ∧ (∀ r, r < s.nextArr → (copyOutfit s recRef).1.arrs r = s.arrs r)
    ∧ (∀ q, q < s.nextObj → (copyOutfit s recRef).1.objs q = s.objs q)
    ∧ GoodObj s.nextArr s.nextObj s.nextObj (copyOutfit s recRef).1 := by
  refine ⟨rfl, ?_, ?_, ?_⟩
  · intro r hr
    show (if r = s.nextArr + 4 then _ else if r = s.nextArr + 3 then _
      else if r = s.nextArr + 2 then _ else if r = s.nextArr + 1 then _
      else if r = s.nextArr then _ else s.arrs r) = s.arrs r
    rw [if_neg (by omega), if_neg (by omega), if_neg (by omega),
        if_neg (by omega), if_neg (by omega)]
  · intro q hq
    show (if q = s.nextObj then _ else s.objs q) = s.objs q
    rw [if_neg (by omega)]
  · unfold GoodObj
    simp [copyOutfit, allocArr, allocObj, readObj]
    omega

/-- C8: `replaceItem` is copy-on-write.  For every store, recommendation
object and old/new garment pair, the call leaves every pre-existing array
(in particular the original outfit's five zone lists) and every
pre-existing object (in particular the original's `totalCLO`, `coreCLO`,
`requirements` and score fields) unchanged, and returns a freshly
allocated object distinct from the original. -/
theorem replaceItem_copy_on_write (s : Store) (recRef : Nat) (oldItem newItem : Garment)
    (h : recRef < s.nextObj) :
    (∀ r, r < s.nextArr → (replaceItemH s recRef oldItem newItem).1.arrs r = s.arrs r)
    ∧ (∀ q, q < s.nextObj → (replaceItemH s recRef oldItem newItem).1.objs q = s.objs q)
    ∧ (replaceItemH s recRef oldItem newItem).1.objs recRef = s.objs recRef
    ∧ (replaceItemH s recRef oldItem newItem).2 = s.nextObj
    ∧ (replaceItemH s recRef oldItem newItem).2 ≠ recRef := by
  have hc := copyOutfit_spec s recRef
  have hg1 : GoodObj s.nextArr s.nextObj (copyOutfit s recRef).2 (copyOutfit s recRef).1 := by
    rw [hc.1]
    exact hc.2.2.2
  have p2 := removeOldItem_frame (u := (copyOutfit s recRef).2) oldItem hg1
  have hg2 := goodObj_of_sameRefs hg1 p2.2
  have p3 := addNewItem_frame (u := (copyOutfit s recRef).2) newItem hg2
  have hg3 := goodObj_of_sameRefs hg2 p3.2
  have p4 := outerAdjust_frame (u := (copyOutfit s recRef).2) oldItem newItem hg3
  have p4s : SameRefs ((outerAdjust (addNewItem (removeOldItem (copyOutfit s recRef).1
      (copyOutfit s recRef).2 oldItem) (copyOutfit s recRef).2 newItem)
      (copyOutfit s recRef).2 oldItem newItem).objs (copyOutfit s recRef).2)
      ((addNewItem (removeOldItem (copyOutfit s recRef).1 (copyOutfit s recRef).2 oldItem)
        (copyOutfit s recRef).2 newItem).objs (copyOutfit s recRef).2) := by
    rw [p4.2]
    exact sameRefs_refl _
  have hg4 := goodObj_of_sameRefs hg3 p4s
  have p5 := recalcCLO_frame (u := (copyOutfit s recRef).2) hg4
  have hg5 := goodObj_of_sameRefs hg4 p5.2
  have p6 := autoRebalance_frame (u := (copyOutfit s recRef).2) hg5
  have hg6 := goodObj_of_sameRefs hg5 p6.2
  have p7 := recalcCLO_frame (u := (copyOutfit s recRef).2) hg6
  have hU := untouched_trans p2.1 (untouched_trans p3.1 (untouched_trans p4.1
    (untouched_trans p5.1 (untouched_trans p6.1 p7.1))))
  unfold replaceItemH
  simp only []
  refine ⟨?_, ?_, ?_, ?_, ?_⟩
  · intro r hr
    exact (hU.1 r hr).trans (hc.2.1 r hr)
  · intro q hq
    exact (hU.2 q hq).trans (hc.2.2.1 q hq)
  · exact (hU.2 recRef h).trans (hc.2.2.1 recRef h)
  · exact hc.1
  · rw [hc.1]
    omega

/-- Witness for C8 on `demoStore`: substituting a (missing) jumper by a
thick jumper leaves the original arrays and object untouched and returns
the fresh object reference 1. -/
theorem replaceItem_copy_on_write_witness :
    (0 : Nat) < demoStore.nextObj
    ∧ (replaceItemH demoStore 0 jumper thickJumper).1.arrs 0 = demoStore.arrs 0
    ∧ (replaceItemH demoStore 0 jumper thickJumper).1.objs 0 = demoStore.objs 0
    ∧ (replaceItemH demoStore 0 jumper thickJumper).2 = demoStore.nextObj
    ∧ (replaceItemH demoStore 0 jumper thickJumper).2 ≠ 0 := by
  have h := replaceItem_copy_on_write demoStore 0 jumper thickJumper (by decide)
  exact ⟨by decide, h.1 0 (by decide), h.2.1 0 (by decide), h.2.2.2.1, h.2.2.2.2⟩

/-! ### The missing-garment precondition of substitution (claim C3) -/

/-- C3 (code bug): when the old garment's key is absent from every zone of
the outfit, `replaceItem` does not fail fast — it silently skips the
removal and still inserts the new garment.  Evaluated at `demoStore`
(core `[t-shirt]`, all other zones empty, nothing keyed `'jumper'`
anywhere): replacing the absent jumper by a thick jumper yields a core
zone `[t-shirt, thick-jumper]` and a raised `totalCLO`, a silently wrong
outfit, not a no-op or explicit failure. -/
theorem missing_old_key_still_inserts :
    (demoStore.arrs 0).all (fun g => !(g.key == "jumper")) = true
    ∧ (demoStore.arrs 1).all (fun g => !(g.key == "jumper")) = true
    ∧ (demoStore.arrs 2).all (fun g => !(g.key == "jumper")) = true
    ∧ (demoStore.arrs 3).all (fun g => !(g.key == "jumper")) = true
    ∧ (demoStore.arrs 4).all (fun g => !(g.key == "jumper")) = true
    ∧ (replaceItemH demoStore 0 jumper thickJumper).1.arrs
        ((replaceItemH demoStore 0 jumper thickJumper).1.objs
          (replaceItemH demoStore 0 jumper thickJumper).2).coreRef
        = [tShirt, thickJumper]
    ∧ ((replaceItemH demoStore 0 jumper thickJumper).1.objs
        (replaceItemH demoStore 0 jumper thickJumper).2).fields.totalCLO = 0.6 :=
  of_decide_eq_true (by with_unfolding_all rfl)

/-! ### The heavy-upgrade accessory removal (claim C5) -/

/-- The accessory chain only ever selects one of the four accessory
references of an object. -/
lemma accZoneRefOf_cases (o : OutfitObj) (z : String) :
    accZoneRefOf o z = o.headRef ∨ accZoneRefOf o z = o.handsRef
      ∨ accZoneRefOf o z = o.neckRef ∨ accZoneRefOf o z = o.feetRef := by
  unfold accZoneRefOf
  split_ifs <;> simp

/-- The accessory-removal loop of the heavy-coat upgrade never writes any
array other than the four accessory arrays of the outfit being edited. -/
lemma removeAccessoriesLoop_arrs_other (u r : Nat) :
    ∀ (entries : List RemEntry) (s : Store) (cur stopAt : ℚ),
      r ≠ (s.objs u).headRef → r ≠ (s.objs u).handsRef →
      r ≠ (s.objs u).neckRef → r ≠ (s.objs u).feetRef →
      (removeAccessoriesLoop s u cur stopAt entries).1.arrs r = s.arrs r := by
  intro entries
  induction entries with
  | nil => intro s cur stopAt _ _ _ _; rfl
  | cons e rest ih =>
    intro s cur stopAt h1 h2 h3 h4
    unfold removeAccessoriesLoop
    by_cases hstop : cur ≤ stopAt
    · rw [if_pos hstop]
    · rw [if_neg hstop]
      simp only []
      cases hidx : (readArr s (accZoneRefOf (readObj s u) e.zone)).findIdx?
          (fun item => item.key == e.item.key) with
      | none => exact ih s cur stopAt h1 h2 h3 h4
      | some idx =>
        have hne : r ≠ accZoneRefOf (readObj s u) e.zone := by
          rcases accZoneRefOf_cases (readObj s u) e.zone with hc | hc | hc | hc <;>
            rw [hc] <;> assumption
        have harr : (writeArr s (accZoneRefOf (readObj s u) e.zone)
            ((readArr s (accZoneRefOf (readObj s u) e.zone)).eraseIdx idx)).arrs r
            = s.arrs r := by
          simp [writeArr, hne]
        exact (ih (writeArr s (accZoneRefOf (readObj s u) e.zone)
          ((readArr s (accZoneRefOf (readObj s u) e.zone)).eraseIdx idx))
          (cur - e.item.clo * 0.3) stopAt h1 h2 h3 h4).trans harr

/-- C5 (amended): during an outer-garment upgrade, the accessory-removal
compensation never modifies the core zone array — it only strips
accessories while decrementing an internal estimate by 30 % of each
removed item's insulation — so the actual core-zone insulation of the
outfit is unchanged by this phase (and can remain above
`coreMax × 1.05`, as the counterexample shows). -/
theorem upgrade_removal_preserves_core (s : Store) (u : Nat)
    (h1 : (s.objs u).coreRef ≠ (s.objs u).headRef)
    (h2 : (s.objs u).coreRef ≠ (s.objs u).handsRef)
    (h3 : (s.objs u).coreRef ≠ (s.objs u).neckRef)
    (h4 : (s.objs u).coreRef ≠ (s.objs u).feetRef) :
    (upgradeAdjust s u).arrs (s.objs u).coreRef = s.arrs (s.objs u).coreRef := by
  unfold upgradeAdjust
  simp only []
  split_ifs with h
  · exact removeAccessoriesLoop_arrs_other u _ _ s _ _ h1 h2 h3 h4
  · rfl

/-- Witness for the amended C5 on `upgradeStore` (distinct references
0–4). -/
theorem upgrade_removal_preserves_core_witness :
    (upgradeStore.objs 0).coreRef ≠ (upgradeStore.objs 0).headRef
    ∧ (upgradeAdjust upgradeStore 0).arrs (upgradeStore.objs 0).coreRef
        = upgradeStore.arrs (upgradeStore.objs 0).coreRef :=
  ⟨by decide,
   upgrade_removal_preserves_core upgradeStore 0 (by decide) (by decide) (by decide) (by decide)⟩

/-- C5 counterexample: replacing the light jacket (0.27) of
`upgradeStore`'s outfit by a padded coat (0.62) satisfies every premise of
the claim — outer for outer, insulation increase ≥ 0.15, resulting core
insulation above `coreMax × 1.1`, and removable accessories to spare (the
removal loop strips all three and stops satisfied by its own estimate) —
yet the returned outfit's core-zone insulation is 0.82, above
`coreMax × 1.05 = 0.735`. -/
theorem heavy_upgrade_violates_bound :
    lightJacket.category = "outer" ∧ paddedCoat.category = "outer"
    ∧ paddedCoat.clo - lightJacket.clo ≥ 0.15
    ∧ sumClo [tShirt, paddedCoat] > req10.core.max * 1.1
    ∧ (replaceItemH upgradeStore 0 lightJacket paddedCoat).1.arrs
        ((replaceItemH upgradeStore 0 lightJacket paddedCoat).1.objs
          (replaceItemH upgradeStore 0 lightJacket paddedCoat).2).headRef = []
    ∧ (replaceItemH upgradeStore 0 lightJacket paddedCoat).1.arrs
        ((replaceItemH upgradeStore 0 lightJacket paddedCoat).1.objs
          (replaceItemH upgradeStore 0 lightJacket paddedCoat).2).handsRef = []
    ∧ (replaceItemH upgradeStore 0 lightJacket paddedCoat).1.arrs
        ((replaceItemH upgradeStore 0 lightJacket paddedCoat).1.objs
          (replaceItemH upgradeStore 0 lightJacket paddedCoat).2).neckRef = []
    ∧ (replaceItemH upgradeStore 0 lightJacket paddedCoat).1.arrs
        ((replaceItemH upgradeStore 0 lightJacket paddedCoat).1.objs
          (replaceItemH upgradeStore 0 lightJacket paddedCoat).2).coreRef
        = [tShirt, paddedCoat]
    ∧ ((replaceItemH upgradeStore 0 lightJacket paddedCoat).1.objs
        (replaceItemH upgradeStore 0 lightJacket paddedCoat).2).fields.coreCLO
        = 0.82
    ∧ req10.core.max * 1.05 = 0.735
    ∧ ((replaceItemH upgradeStore 0 lightJacket paddedCoat).1.objs
        (replaceItemH upgradeStore 0 lightJacket paddedCoat).2).fields.coreCLO
        > req10.core.max * 1.05 :=
  of_decide_eq_true (by with_unfolding_all rfl)

end WrapMe
